import Mathlib

/-!
# Shallow embedding of the afw Python layer

This file embeds, in Lean 4, the Python code of the `afw` repository that the
claims concern:

* `python/lsst/afw/cameraGeom/utils.py` — the policy-driven factory functions
  `makeCcd`, `makeRaft`, `makeCamera`, `makeDefects`, and the finders
  `findCcd` / `findRaft`;
* `bin.src/showCamera.py` — the focal-plane plotting script (modelled as a
  trace-producing function over an abstract environment);
* the monkey-patch modules `filterContinued.py`, `kernelContinued.py`,
  `exposureInfoContinued.py`.

Python exceptions are modelled with `Except CGError`.  A `pexPolicy` record is
modelled as a Lean structure whose fields are the keys the Python code reads:
a key read through `pol.exists(k)` becomes an `Option` field, a key read
unconditionally becomes a plain field.  Floating-point policy values (offsets,
gains, pixel sizes) are modelled as `Rat`; they are only stored, never
computed with, in the embedded code.  The single-element mutable list
`ampSerial` that Python threads through `ccdInfo`/`raftInfo`/`cameraInfo`
dictionaries is modelled by passing the counter value in and returning the
resulting info record; an absent info dictionary is `none`.

Native (C++) classes are embedded as structures recording exactly what the
Python layer stores into them; native geometry methods that the Python layer
merely calls for the `...Info` bookkeeping blocks (`getSize().getMm()`,
`getAllPixels()`, `getPixelSize()` on composites) are abstracted into a
`NativeOps` parameter.
-/

namespace Afw

/-- Python exceptions raised by the embedded code. -/
inductive CGError where
  /-- `raise RuntimeError, msg` -/
  | runtimeError (msg : String)
  /-- `raise("msg")` — raising a plain string, a `TypeError` on Python 2.6+. -/
  | typeError (msg : String)
  /-- a lookup of an unbound name, Python `NameError` -/
  | nameError (nm : String)
  /-- `pexPolicy` lookup of a missing key -/
  | policyError (key : String)
  deriving DecidableEq, Repr

/-! ## Geometry primitives (`lsst.afw.geom`) -/

/-- `afwGeom.Point2I` -/
structure Point2I where
  x : Int
  y : Int
  deriving DecidableEq, Repr

/-- `afwGeom.Box2I`, built from two corner points (inclusive). -/
structure Box2I where
  minP : Point2I
  maxP : Point2I
  deriving DecidableEq, Repr

/-- `Box2I.getDimensions`: width and height of an inclusive integer box. -/
def Box2I.getDimensions (b : Box2I) : Int × Int :=
  (b.maxP.x - b.minP.x + 1, b.maxP.y - b.minP.y + 1)

/-- `afwGeom.Box2I(Point2I(x0, y0), Extent2I(w, h))`: a box given by its
lower corner and dimensions. -/
def Box2I.ofExtent (p : Point2I) (w h : Int) : Box2I :=
  ⟨p, ⟨p.x + w - 1, p.y + h - 1⟩⟩

/-- `afwGeom` angle units; only `degrees` is used by the embedded code. -/
inductive AngleUnit where
  | degrees
  deriving DecidableEq, Repr

/-- `afwGeom.Angle(a, unit)` -/
structure Angle where
  value : Rat
  unit : AngleUnit
  deriving DecidableEq, Repr

/-- `cameraGeom.FpPoint`, a focal-plane position in mm. -/
structure FpPoint where
  x : Rat
  y : Rat
  deriving DecidableEq, Repr

/-- `cameraGeom.Orientation(nQuarter, pitch, roll, yaw)`; the no-argument
constructor `Orientation()` uses the defaults. -/
structure Orientation where
  nQuarter : Int := 0
  pitch : Angle := ⟨0, .degrees⟩
  roll : Angle := ⟨0, .degrees⟩
  yaw : Angle := ⟨0, .degrees⟩
  deriving DecidableEq, Repr

/-! ## `cameraGeom` detector objects -/

/-- `cameraGeom.Id(serial, name)` and `cameraGeom.Id(serial, name, col, row)`;
the native defaults are `serial = -1`, `name = ""`, no index. -/
structure Id where
  serial : Int := -1
  name : String := ""
  index : Option (Int × Int) := none
  deriving DecidableEq, Repr

/-- `cameraGeom.ElectronicParams(gain, readNoise, saturationLevel)` -/
structure ElectronicParams where
  gain : Rat
  readNoise : Rat
  saturationLevel : Rat
  deriving DecidableEq, Repr

/-- The `cameraGeom.Amp` disk coordinate systems (`Amp.AMP` etc.) named by the
`diskCoordSys` dict in `makeCcd`. -/
inductive DiskCoordSys where
  | amp
  | sensor
  | camera
  deriving DecidableEq, Repr

/-- Python's `str.upper()` on the ASCII policy strings, modelled as a
per-character map (identical to `String.toUpper` but kernel-reducible). -/
def strUpper (s : String) : String :=
  String.mk (s.data.map Char.toUpper)

/-- The `diskCoordSys` lookup dict of `makeCcd`: keys `"AMP"`, `"SENSOR"`,
`"CAMERA"` after upper-casing. -/
def diskCoordSysOfString (s : String) : Option DiskCoordSys :=
  if strUpper s = "AMP" then some .amp
  else if strUpper s = "SENSOR" then some .sensor
  else if strUpper s = "CAMERA" then some .camera
  else none

/-- `cameraGeom.Amp`, as constructed by `makeCcd`: the constructor arguments
plus the state stored by `setElectronicToChipLayout` (whose native geometric
effect — remapping pixels from electronic to detector coordinates — is
abstracted to recording its arguments). -/
structure Amp where
  id : Id
  allPixels : Box2I
  biasSec : Box2I
  dataSec : Box2I
  eParams : ElectronicParams
  chipIndex : Point2I
  nQuarter : Int
  flipLR : Bool
  diskCoordSys : DiskCoordSys
  deriving DecidableEq, Repr

/-- `afwImage.DefectBase(bbox)` -/
structure DefectBase where
  bbox : Box2I
  deriving DecidableEq, Repr

/-- `afwImage.DefectSet` with `push_back` appending. -/
abbrev DefectSet := List DefectBase

/-- `cameraGeom.Ccd(id, pixelSize)`; `addAmp` appends to `amps`, `setDefects`
replaces `defects`. -/
structure Ccd where
  id : Id
  pixelSize : Rat
  amps : List Amp := []
  defects : DefectSet := []
  deriving DecidableEq, Repr

def Ccd.addAmp (c : Ccd) (a : Amp) : Ccd := { c with amps := c.amps ++ [a] }

def Ccd.setDefects (c : Ccd) (d : DefectSet) : Ccd := { c with defects := d }

/-- One `raft.addDetector(index, fpPos, orientation, ccd)` record. -/
structure RaftDetEntry where
  index : Point2I
  fpPos : FpPoint
  orient : Orientation
  det : Ccd
  deriving DecidableEq, Repr

/-- `cameraGeom.Raft(id, nCol, nRow)` with `addDetector` appending. -/
structure Raft where
  id : Id
  nCol : Int
  nRow : Int
  detectors : List RaftDetEntry := []
  deriving DecidableEq, Repr

def Raft.addDetector (r : Raft) (p : Point2I) (fp : FpPoint) (o : Orientation)
    (c : Ccd) : Raft :=
  { r with detectors := r.detectors ++ [⟨p, fp, o, c⟩] }

/-- The distortion objects `makeCamera` may construct. -/
inductive Distortion where
  /-- `cameraGeom.NullDistortion()` -/
  | nullDistortion
  /-- `cameraGeom.RadialPolyDistortion(coeffs, coefficientsDistort)` -/
  | radialPoly (coeffs : List Rat) (coefficientsDistort : Bool)
  deriving DecidableEq, Repr

/-- One `camera.addDetector(index, fpPos, orientation, raft)` record. -/
structure CameraDetEntry where
  index : Point2I
  fpPos : FpPoint
  orient : Orientation
  det : Raft
  deriving DecidableEq, Repr

/-- `cameraGeom.Camera(id, nCol, nRow)`.  `setDistortion` appends its argument
to `distortionSets`, so the trace records how often it was called; the current
distortion is the last entry. -/
structure Camera where
  id : Id
  nCol : Int
  nRow : Int
  detectors : List CameraDetEntry := []
  distortionSets : List (Option Distortion) := []
  deriving DecidableEq, Repr

def Camera.addDetector (c : Camera) (p : Point2I) (fp : FpPoint)
    (o : Orientation) (r : Raft) : Camera :=
  { c with detectors := c.detectors ++ [⟨p, fp, o, r⟩] }

def Camera.setDistortion (c : Camera) (d : Option Distortion) : Camera :=
  { c with distortionSets := c.distortionSets ++ [d] }

/-! ## Policy records (`pexPolicy`) -/

/-- One `Defect` sub-policy record of a `Defects.Raft.Ccd` policy: `x0`, `y0`
are read unconditionally, the rest through `defect.exists(...)`. -/
structure DefectPol where
  x0 : Int
  y0 : Int
  x1 : Option Int := none
  y1 : Option Int := none
  width : Option Int := none
  height : Option Int := none
  deriving DecidableEq, Repr

/-- One `Ccd` record of the `Defects.Raft` policy. -/
structure DefectCcdPol where
  serial : Int
  name : String
  defect : List DefectPol
  deriving DecidableEq, Repr

/-- One `Raft` record of the `Defects` policy. -/
structure DefectRaftPol where
  ccd : List DefectCcdPol
  deriving DecidableEq, Repr

/-- The `Defects` policy: an array of `Raft` records. -/
structure DefectsPol where
  raft : List DefectRaftPol
  deriving DecidableEq, Repr

/-! ## `makeDefects` -/

/-- Python dict insertion with overwrite (`d[k] = v`), as an association
list in insertion order. -/
def pyDictInsert {α β : Type} [DecidableEq α] (d : List (α × β)) (k : α)
    (v : β) : List (α × β) :=
  if d.any (fun p => p.1 = k) then
    d.map (fun p => if p.1 = k then (k, v) else p)
  else
    d ++ [(k, v)]

/-- Python truthiness of an optional int (`if width:`): `None` and `0` are
falsy. -/
def truthyOptInt : Option Int → Bool
  | none => false
  | some n => n ≠ 0

/-- The shared x/y logic of `makeDefects`'s per-defect handling (the source
repeats this block for `x1`/`width` and then `y1`/`height`): resolve the
upper coordinate from an optional explicit value `c1?` and an optional
extent `len?`, raising `RuntimeError` exactly as the source does.  Note the
extent is tested with Python truthiness (`if width:`), so an extent of `0`
behaves like an absent one. -/
def resolveDefectCoord (ccdId : Id) (x0 y0 : Int) (c0 : Int)
    (c1? len? : Option Int) (axis : String) : Except CGError Int :=
  match c1? with
  | none =>
    if truthyOptInt len? then
      pure (c0 + len?.getD 0 - 1)
    else
      throw (.runtimeError ("Defect at (" ++ toString x0 ++ "," ++ toString y0
        ++ ") for CCD (" ++ ccdId.name ++ ") has no " ++ axis))
  | some c1 =>
    if truthyOptInt len? then
      if c1 ≠ c0 + len?.getD 0 - 1 then
        throw (.runtimeError ("Defect at (" ++ toString x0 ++ "," ++ toString y0
          ++ ") for CCD (" ++ ccdId.name ++ ") has inconsistent " ++ axis
          ++ " = " ++ toString c1 ++ "," ++ toString (len?.getD 0)))
      else
        pure c1
    else
      pure c1

/-- The body of `makeDefects` handling a single `Defect` record: resolve `x1`
from `x1`/`width` and `y1` from `y1`/`height` and return the recorded
bounding box. -/
def processDefect (ccdId : Id) (d : DefectPol) : Except CGError Box2I := do
  let x1 ← resolveDefectCoord ccdId d.x0 d.y0 d.x0 d.x1 d.width "x1/width"
  let y1 ← resolveDefectCoord ccdId d.x0 d.y0 d.y0 d.y1 d.height "y1/height"
  pure (Box2I.mk ⟨d.x0, d.y0⟩ ⟨x1, y1⟩)

/-- The inner loop of `makeDefects` over the `Defect` records of one Ccd. -/
def defectLoop (ccdId : Id) : List DefectPol → Except CGError DefectSet
  | [] => pure []
  | d :: rest => do
    let bbox ← processDefect ccdId d
    let others ← defectLoop ccdId rest
    pure (DefectBase.mk bbox :: others)

/-- The loop of `makeDefects` over the Ccd records of one `Raft` policy. -/
def defectCcdLoop (acc : List (Id × DefectSet)) :
    List DefectCcdPol → Except CGError (List (Id × DefectSet))
  | [] => pure acc
  | c :: rest => do
    let ccdId : Id := { serial := c.serial, name := c.name }
    let defects ← defectLoop ccdId c.defect
    defectCcdLoop (pyDictInsert acc ccdId defects) rest

/-- The outer loop of `makeDefects` over the `Raft` records. -/
def defectRaftLoop (acc : List (Id × DefectSet)) :
    List DefectRaftPol → Except CGError (List (Id × DefectSet))
  | [] => pure acc
  | r :: rest => do
    let acc' ← defectCcdLoop acc r.ccd
    defectRaftLoop acc' rest

/-- `makeDefects(geomPolicy)`: a dictionary of `DefectSet`s indexed by Ccd
`Id`, built from the `Defects` policy. -/
def makeDefects (defectListPol : DefectsPol) :
    Except CGError (List (Id × DefectSet)) :=
  defectRaftLoop [] defectListPol.raft

/-! ## Camera-geometry policy records -/

/-- One `Amp` record of the `Electronic.Raft.Ccd` policy. -/
structure ElectronicAmpPol where
  index : Int × Int
  gain : Rat
  readNoise : Rat
  saturationLevel : Rat
  deriving DecidableEq, Repr

/-- One `Ccd` record of an `Electronic.Raft` policy. -/
structure ElectronicCcdPol where
  name : String
  ptype : String
  amp : List ElectronicAmpPol
  deriving DecidableEq, Repr

/-- One `Raft` record of the `Electronic` policy. -/
structure ElectronicRaftPol where
  ccd : List ElectronicCcdPol
  deriving DecidableEq, Repr

/-- The `Electronic` policy. -/
structure ElectronicPol where
  raft : List ElectronicRaftPol
  deriving DecidableEq, Repr

/-- One `Amp` record of a `Ccd` policy (`serial` is read through
`ampPol.exists("serial")`, the rest unconditionally). -/
structure AmpPol where
  serial : Option Int := none
  index : Int × Int
  ptype : String
  flipLR : Bool
  diskCoordSys : String
  nQuarter : Int
  hdu : Int
  deriving DecidableEq, Repr

/-- One record of the top-level `Amp` array: the per-type bounding-box
information looked up by `ptype`. -/
structure AmpTemplatePol where
  ptype : String
  datasec : Int × Int × Int × Int
  biassec : Int × Int × Int × Int
  ewidth : Int
  eheight : Int
  deriving DecidableEq, Repr

/-- One record of the top-level `Ccd` array. -/
structure CcdPol where
  serial : Option Int := none
  name : Option String := none
  ptype : String
  pixelSize : Rat
  nCol : Int
  nRow : Int
  amp : List AmpPol
  deriving DecidableEq, Repr

/-- One `Ccd` record of a `Raft` policy, also the `ccdDescription` argument of
`makeCcd`; all its fields are read with unconditional `get` calls. -/
structure RaftCcdPol where
  serial : Int
  name : String
  ptype : String
  index : Int × Int
  offset : Rat × Rat
  nQuarter : Int
  orientation : Rat × Rat × Rat
  deriving DecidableEq, Repr

/-- A `Raft` policy record. -/
structure RaftPol where
  serial : Option Int := none
  name : Option String := none
  nCol : Int
  nRow : Int
  ccd : List RaftCcdPol
  deriving DecidableEq, Repr

/-- A `pexPolicy` key that may hold a scalar or an array of values.
`get` returns the last value, `getArray` all of them. -/
inductive PolicyValue (α : Type) where
  | scalar (a : α)
  | array (arr : List α)
  deriving DecidableEq, Repr

/-- `Policy.get`: the last value stored under the key. -/
def PolicyValue.get {α : Type} : PolicyValue α → Option α
  | .scalar a => some a
  | .array arr => arr.getLast?

/-- One `Raft` record of the `Camera` policy. -/
structure CameraRaftPol where
  index : Int × Int
  offset : Rat × Rat
  serial : Int
  name : String
  deriving DecidableEq, Repr

/-- A named sub-policy of the `Camera.Distortion` policy; `coeffs` and
`coefficientsDistort` are only read for `RadialPolyDistortion`. -/
structure ActiveDistortionPol where
  coeffs : List Rat := []
  coefficientsDistort : Bool := false
  deriving DecidableEq, Repr

/-- The `Camera.Distortion` policy: the `active` name and the named
sub-policies. -/
structure DistortionPol where
  active : String
  policies : List (String × ActiveDistortionPol)
  deriving DecidableEq, Repr

/-- The `Camera` policy. -/
structure CameraPol where
  serial : Int
  name : String
  nCol : Int
  nRow : Int
  raft : List CameraRaftPol
  distortion : DistortionPol
  deriving DecidableEq, Repr

/-- The full camera-geometry policy, with one field per top-level key the
factory functions read. -/
structure GeomPolicy where
  /-- the top-level `Ccd` array; `get` returns its last record -/
  ccd : List CcdPol
  /-- the top-level `Amp` array of per-type bounding-box templates -/
  amp : List AmpTemplatePol
  electronic : ElectronicPol
  raft : PolicyValue RaftPol
  camera : CameraPol
  defects : DefectsPol
  deriving DecidableEq, Repr

/-! ## `makeCcd` -/

/-- The Ccd-policy selection at the top of `makeCcd`: with a
`ccdDescription`, the last record of the top-level `Ccd` array whose `ptype`
matches the description's; without one, `geomPolicy.get("Ccd")`, i.e. the
last record. -/
def selectCcdPol (g : GeomPolicy) (ccdDescription : Option RaftCcdPol) :
    Option CcdPol :=
  match ccdDescription with
  | some descr => (g.ccd.filter (fun ct => ct.ptype = descr.ptype)).getLast?
  | none => g.ccd.getLast?

/-- The `electronics` dict built at the top of `makeCcd`. -/
structure Electronics where
  ccdName : Option String := none
  amps : List ((Int × Int) × ElectronicAmpPol) := []
  deriving DecidableEq, Repr

/-- The inner loop over an `Electronic.Raft` policy's Ccd records: the first
record whose name matches `"*"` or the Ccd's name and whose `ptype` matches
updates the dict and breaks. -/
def electronicsCcdScan (ccdName ccdType : String) (e : Electronics) :
    List ElectronicCcdPol → Electronics
  | [] => e
  | pol :: rest =>
    if (pol.name = "*" ∨ pol.name = ccdName) ∧ pol.ptype = ccdType then
      { ccdName := some pol.name,
        amps := pol.amp.foldl (fun d p => pyDictInsert d p.index p) e.amps }
    else
      electronicsCcdScan ccdName ccdType e rest

/-- The electronics lookup of `makeCcd`: scan every `Electronic.Raft` record
(the inner `break` only leaves the Ccd loop). -/
def buildElectronics (ccdName ccdType : String)
    (rafts : List ElectronicRaftPol) : Electronics :=
  rafts.foldl (fun e r => electronicsCcdScan ccdName ccdType e r.ccd) {}

/-- The running state of the amplifier loop of `makeCcd`: the `ampSerial[0]`
counter, the first serial seen (`ampSerial0`), the `dataSec`/`ewidth`/
`eheight` bindings left by the last completed iteration, and the Ccd under
construction. -/
structure AmpLoopState where
  counter : Int
  ampSerial0 : Option Int := none
  lastDims : Option (Box2I × Int × Int) := none
  ccd : Ccd
  deriving DecidableEq, Repr

/-- The part of the `makeCcd` amp-loop body that follows the grid check:
electronics lookup, per-type bounding-box lookup, and the `Amp` construction
with `setElectronicToChipLayout`; returns the amp and the
`dataSec`/`ewidth`/`eheight` bindings the iteration leaves behind. -/
def buildAmp (g : GeomPolicy) (electronics : Electronics) (ccdName : String)
    (serial col row : Int) (ampType : String) (flipLR : Bool)
    (coordSys : DiskCoordSys) (nQuarterAmp : Int) :
    Except CGError (Amp × (Box2I × Int × Int)) := do
  let eVals ← match (electronics.amps.find?
      (fun p => p.1 = (col, row))).map Prod.snd with
    | some ePol => pure (ePol.gain, ePol.readNoise, ePol.saturationLevel)
    | none =>
      if electronics.ccdName ≠ some "*" then
        throw (.runtimeError ("Unable to find electronic info for Ccd \""
          ++ ccdName ++ "\", Amp " ++ toString serial))
      else
        pure (0, 0, 0)
  let (gain, readNoise, saturationLevel) := eVals
  let ampTemplate ← match (g.amp.filter
      (fun p => p.ptype = ampType)).getLast? with
    | some p => pure p
    | none => throw (.runtimeError ("Unable to find bounding box info for Amp: "
        ++ toString col ++ ", " ++ toString row ++ " in Ccd \""
        ++ ccdName ++ "\""))
  let (dminx, dminy, dmaxx, dmaxy) := ampTemplate.datasec
  let dataSec : Box2I := ⟨⟨dminx, dminy⟩, ⟨dmaxx, dmaxy⟩⟩
  let (bminx, bminy, bmaxx, bmaxy) := ampTemplate.biassec
  let biasSec : Box2I := ⟨⟨bminx, bminy⟩, ⟨bmaxx, bmaxy⟩⟩
  let eWidth := ampTemplate.ewidth
  let eHeight := ampTemplate.eheight
  let allPixelsInAmp := Box2I.ofExtent ⟨0, 0⟩ eWidth eHeight
  let eParams : ElectronicParams := ⟨gain, readNoise, saturationLevel⟩
  let amp : Amp :=
    { id := { serial := serial, name := "ID" ++ toString serial,
              index := some (col, row) },
      allPixels := allPixelsInAmp, biasSec := biasSec, dataSec := dataSec,
      eParams := eParams, chipIndex := ⟨col, row⟩, nQuarter := nQuarterAmp,
      flipLR := flipLR, diskCoordSys := coordSys }
  pure (amp, (dataSec, eWidth, eHeight))

/-- The `for ampPol in ccdPol.getArray("Amp")` loop of `makeCcd`. -/
def ampLoop (force : Bool) (g : GeomPolicy) (nCol nRow : Int)
    (electronics : Electronics) (st : AmpLoopState) :
    List AmpPol → Except CGError AmpLoopState
  | [] => pure st
  | ampPol :: rest => do
    let serial : Int := match ampPol.serial with
      | some s => s
      | none => st.counter
    let counter := serial + 1
    let ampSerial0 := match st.ampSerial0 with
      | none => some serial
      | some s => some s
    let (col, row) := ampPol.index
    let ampType := ampPol.ptype
    let flipLR := ampPol.flipLR
    let coordSys ← match diskCoordSysOfString ampPol.diskCoordSys with
      | some c => pure c
      | none => throw (.typeError
          "Coordinate system specified in the policy must be one of: AMP,SENSOR,CAMERA")
    let nQuarterAmp := ampPol.nQuarter
    let _hdu := ampPol.hdu
    if ¬ (0 ≤ col ∧ col < nCol ∧ 0 ≤ row ∧ row < nRow) then
      if force then
        ampLoop force g nCol nRow electronics
          { st with counter := counter, ampSerial0 := ampSerial0 } rest
      else
        throw (.runtimeError ("Amp location " ++ toString col ++ ", "
          ++ toString row ++ " is not in 0.." ++ toString nCol
          ++ ", 0.." ++ toString nRow))
    else do
      let built ← buildAmp g electronics st.ccd.id.name serial col row
        ampType flipLR coordSys nQuarterAmp
      let (amp, dims) := built
      let ccd := st.ccd.addAmp amp
      ampLoop force g nCol nRow electronics
        { counter := counter, ampSerial0 := ampSerial0,
          lastDims := some dims, ccd := ccd } rest

/-- The `ccdInfo` facts recorded at the end of `makeCcd`; `ampSerial` is the
final value of the shared counter. -/
structure CcdInfo where
  ampSerial : Int
  name : String
  ampWidth : Int
  ampHeight : Int
  width : Int
  height : Int
  trimmedWidth : Int
  trimmedHeight : Int
  pixelSize : Rat
  ampIdMin : Option Int
  ampIdMax : Int
  deriving DecidableEq, Repr

/-- The identifier handling at the top of `makeCcd`: with a
`ccdDescription`, build `tId` from it and check agreement with a passed
`ccdId` (raising when they differ); without one, keep the passed argument. -/
def resolveCcdIdArg (ccdId0 : Option Id) (descr? : Option RaftCcdPol) :
    Except CGError (Option Id) :=
  match descr? with
  | some descr =>
    let tId : Id := { serial := descr.serial, name := descr.name }
    match ccdId0 with
    | some cid =>
      if ¬ tId = cid then
        throw (.typeError ("Identifiers don't agree -- Passed: "
          ++ cid.name ++ ", Policy: " ++ tId.name))
      else
        pure (some cid)
    | none => pure (some tId)
  | none => pure ccdId0

/-- The fallback `ccdId` derivation of `makeCcd`: the resolved argument if
present, else the policy's `serial`/`name` (the `try/except` falls back to
`Id(0, "unknown")` when the fields are missing). -/
def deriveCcdId (ccdId? : Option Id) (ccdPol : CcdPol) : Id :=
  match ccdId? with
  | some cid => cid
  | none => match ccdPol.serial, ccdPol.name with
    | some s, some n => { serial := s, name := n }
    | _, _ => { serial := 0, name := "unknown" }

/-- `cameraGeom.Ccd(ccdId, pixelSize)` followed by the defect-dictionary
scan (`ccd.setDefects` for each key equal to `ccdId`, last match wins). -/
def initCcd (ccdId : Id) (pixelSize : Rat)
    (defectDict : List (Id × DefectSet)) : Ccd :=
  defectDict.foldl
    (fun c kv => if ccdId = kv.1 then c.setDefects kv.2 else c)
    { id := ccdId, pixelSize := pixelSize }

/-- The `ccdInfo` block at the end of `makeCcd`; it reads the `dataSec`,
`ewidth` and `eheight` bindings left by the last loop iteration (a
`NameError` when the loop body never completed). -/
def ccdInfoOut (ccdInfoIn : Option Int) (ccdPol : CcdPol)
    (st : AmpLoopState) : Except CGError (Option CcdInfo) :=
  match ccdInfoIn with
  | none => pure none
  | some _ => match st.lastDims with
    | none => throw (.nameError "dataSec")
    | some dims =>
      let (dataSec, eW, eH) := dims
      let (width, height) := dataSec.getDimensions
      pure (some { ampSerial := st.counter, name := st.ccd.id.name,
                   ampWidth := width, ampHeight := height,
                   width := ccdPol.nCol * eW, height := ccdPol.nRow * eH,
                   trimmedWidth := ccdPol.nCol * width,
                   trimmedHeight := ccdPol.nRow * height,
                   pixelSize := ccdPol.pixelSize, ampIdMin := st.ampSerial0,
                   ampIdMax := st.counter - 1 })

/-- `makeCcd(geomPolicy, ccdId, ccdInfo, defectDict, ccdDescription)`.
The `ccdInfo` dictionary argument is represented by the `ampSerial` counter
it carries in (`none` when no dictionary is passed); the facts it holds on
return are the `CcdInfo` component of the result. -/
def makeCcd (force : Bool) (g : GeomPolicy) (ccdId0 : Option Id)
    (ccdInfoIn : Option Int) (defectDict : List (Id × DefectSet))
    (ccdDescription : Option RaftCcdPol) :
    Except CGError (Ccd × Option CcdInfo) := do
  let ccdId? ← resolveCcdIdArg ccdId0 ccdDescription
  let ccdPol ← match selectCcdPol g ccdDescription with
    | some p => pure p
    | none => throw (.typeError "No valid CCD policy found")
  let ccdId : Id := deriveCcdId ccdId? ccdPol
  let electronics := buildElectronics ccdId.name ccdPol.ptype g.electronic.raft
  let ccd0 := initCcd ccdId ccdPol.pixelSize defectDict
  if ccdPol.nCol * ccdPol.nRow ≠ (ccdPol.amp.length : Int) then
    if force then
      pure ()
    else
      throw (.runtimeError ("Expected location of "
        ++ toString (ccdPol.nCol * ccdPol.nRow)
        ++ " amplifiers, got " ++ toString ccdPol.amp.length))
  let st ← ampLoop force g ccdPol.nCol ccdPol.nRow electronics
    { counter := ccdInfoIn.getD 0, ccd := ccd0 } ccdPol.amp
  let info? ← ccdInfoOut ccdInfoIn ccdPol st
  pure (st.ccd, info?)

/-! ## `makeRaft` -/

/-- Native geometry methods that the `...Info` bookkeeping blocks call on
composites (`getSize().getMm()`, `getAllPixels()`, `getPixelSize()`); their
geometric computation lives in the native library and is abstracted here. -/
structure NativeOps where
  ccdSizeMm : Ccd → Rat × Rat
  ccdAllPixels : Ccd → Bool → Box2I
  raftSizeMm : Raft → Rat × Rat
  raftAllPixels : Raft → Box2I
  raftPixelSize : Raft → Rat

/-- The `raftInfo` facts recorded at the end of `makeRaft`. -/
structure RaftInfo where
  ampSerial : Int
  name : String
  pixelSize : Rat
  width : Int
  height : Int
  widthMm : Rat
  heightMm : Rat
  deriving DecidableEq, Repr

/-- The running state of the Ccd loop of `makeRaft`: the raft under
construction, the shared `ampSerial` counter (present exactly when a
`raftInfo` dictionary was passed), the `xGutter`/`yGutter` bindings, and the
`ccd` binding left by the last completed iteration. -/
structure RaftLoopState where
  raft : Raft
  counterIn : Option Int
  xGutter : Option Rat := none
  yGutter : Option Rat := none
  lastCcd : Option Ccd := none

/-- The `for ccdPol in raftPol.getArray("Ccd")` loop of `makeRaft`. -/
def raftCcdLoop (force : Bool) (nat : NativeOps) (g : GeomPolicy)
    (nCol nRow : Int) (defectDict : List (Id × DefectSet))
    (st : RaftLoopState) : List RaftCcdPol → Except CGError RaftLoopState
  | [] => pure st
  | ccdPol :: rest => do
    let (col, row) := ccdPol.index
    let (xc, yc) := ccdPol.offset
    let nQuarter := ccdPol.nQuarter
    -- pitch, roll, yaw = [Angle(a, degrees) for a in orientation]
    let pitch : Angle := ⟨ccdPol.orientation.1, .degrees⟩
    let roll : Angle := ⟨ccdPol.orientation.2.1, .degrees⟩
    let yaw : Angle := ⟨ccdPol.orientation.2.2, .degrees⟩
    if ¬ (0 ≤ col ∧ col < nCol ∧ 0 ≤ row ∧ row < nRow) then
      if force then
        raftCcdLoop force nat g nCol nRow defectDict st rest
      else
        throw (.runtimeError ("Ccd location " ++ toString col ++ ", "
          ++ toString row ++ " is not in 0.." ++ toString nCol
          ++ ", 0.." ++ toString nRow))
    else do
      let ccdId : Id := { serial := ccdPol.serial, name := ccdPol.name }
      let res ← makeCcd force g (some ccdId) st.counterIn defectDict
        (some ccdPol)
      let (ccd, info?) := res
      let raft := st.raft.addDetector ⟨col, row⟩ ⟨xc, yc⟩
        { nQuarter := nQuarter, pitch := pitch, roll := roll, yaw := yaw } ccd
      let counterIn := info?.map (·.ampSerial)
      -- `if raftInfo is not None:` — guess the gutter between detectors
      let gutters ← if st.counterIn.isSome then
          if (col, row) = ((0 : Int), (0 : Int)) then
            pure (some xc, some yc)
          else if (col, row) = (nCol - 1, nRow - 1) then do
            let xg ← if nCol = 1 then
                pure (0 : Rat)
              else match st.xGutter with
                | some xg => pure ((xc - xg) / ((nCol : Rat) - 1)
                    - (nat.ccdSizeMm ccd).1)
                | none => throw (.nameError "xGutter")
            let yg ← if nRow = 1 then
                pure (0 : Rat)
              else match st.yGutter with
                | some yg => pure ((yc - yg) / ((nRow : Rat) - 1)
                    - (nat.ccdSizeMm ccd).2)
                | none => throw (.nameError "yGutter")
            pure (some xg, some yg)
          else
            pure (st.xGutter, st.yGutter)
        else
          pure (st.xGutter, st.yGutter)
      let (xGutter, yGutter) := gutters
      raftCcdLoop force nat g nCol nRow defectDict
        { raft := raft, counterIn := counterIn, xGutter := xGutter,
          yGutter := yGutter, lastCcd := some ccd } rest

/-- The `for p in geomPolicy.getArray("Raft")` lookup loop of `makeRaft`:
build an `Id` from the available information and break at the first record
matching the requested `raftId`; the native `Id` defaults are `serial = -1`
and `name = ""`. -/
def findRaftPol (raftId : Id) : List RaftPol → Except CGError RaftPol
  | [] => throw (.runtimeError ("I can't find Raft " ++ raftId.name))
  | p :: rest => do
    let rid : Id ← match p.name, p.serial with
      | some n, some s => pure { serial := s, name := n }
      | some n, none => pure { name := n }
      | none, some s => pure { serial := s }
      | none, none =>
        throw (.runtimeError "Please provide a raft name, a raft serial, or both")
    if rid = raftId then pure p else findRaftPol raftId rest

/-- The Raft-policy selection at the top of `makeRaft`: look up by `Id` when
a `raftId` is given and the `Raft` key is an array, else
`geomPolicy.get("Raft")`. -/
def selectRaftPol (raftKey : PolicyValue RaftPol) (raftId0 : Option Id) :
    Except CGError RaftPol :=
  match raftId0, raftKey with
  | some rid0, .array rafts => findRaftPol rid0 rafts
  | _, _ => match raftKey.get with
    | some p => pure p
    | none => throw (.policyError "Raft")

/-- The fallback `raftId` derivation of `makeRaft` (the `try/except` falls
back to `Id(0, "unknown")`). -/
def deriveRaftId (raftId0 : Option Id) (raftPol : RaftPol) : Id :=
  match raftId0 with
  | some rid => rid
  | none => match raftPol.serial, raftPol.name with
    | some s, some n => { serial := s, name := n }
    | _, _ => { serial := 0, name := "unknown" }

/-- The `raftInfo` block at the end of `makeRaft`; it reads the shared
counter and the `ccd`/`xGutter`/`yGutter` bindings left by the loop
(a `NameError` when unbound). -/
def raftInfoOut (nat : NativeOps) (raftInfoIn : Option Int) (nCol nRow : Int)
    (st : RaftLoopState) : Except CGError (Option RaftInfo) := do
  match raftInfoIn with
  | none => pure none
  | some _ => do
    let counter ← match st.counterIn with
      | some c => pure c
      | none => throw (.nameError "ampSerial")
    let ccd ← match st.lastCcd with
      | some c => pure c
      | none => throw (.nameError "ccd")
    let xg ← match st.xGutter with
      | some v => pure v
      | none => throw (.nameError "xGutter")
    let yg ← match st.yGutter with
      | some v => pure v
      | none => throw (.nameError "yGutter")
    let (szW, szH) := nat.ccdSizeMm ccd
    let (apW, apH) := (nat.ccdAllPixels ccd true).getDimensions
    pure (some { ampSerial := counter, name := st.raft.id.name,
                 pixelSize := ccd.pixelSize,
                 width := nCol * apW, height := nRow * apH,
                 widthMm := (nCol : Rat) * szW + ((nCol : Rat) - 1) * xg,
                 heightMm := (nRow : Rat) * szH + ((nRow : Rat) - 1) * yg })

/-- `makeRaft(geomPolicy, raftId, raftInfo, defectDict)`.  As for `makeCcd`,
the `raftInfo` dictionary argument is represented by the `ampSerial` counter
it carries in. -/
def makeRaft (force : Bool) (nat : NativeOps) (g : GeomPolicy)
    (raftId0 : Option Id) (raftInfoIn : Option Int)
    (defectDict : List (Id × DefectSet)) :
    Except CGError (Raft × Option RaftInfo) := do
  let raftPol ← selectRaftPol g.raft raftId0
  let raftId : Id := deriveRaftId raftId0 raftPol
  let raft0 : Raft := { id := raftId, nCol := raftPol.nCol,
                        nRow := raftPol.nRow }
  -- the Ccd-count check sits inside an `if False:` block in the source
  if raftPol.nCol * raftPol.nRow ≠ (raftPol.ccd.length : Int) then
    if False then
      if force then
        pure ()
      else
        throw (.runtimeError ("Expected location of "
          ++ toString (raftPol.nCol * raftPol.nRow)
          ++ " Ccds, got " ++ toString raftPol.ccd.length))
  let st ← raftCcdLoop force nat g raftPol.nCol raftPol.nRow defectDict
    { raft := raft0, counterIn := raftInfoIn } raftPol.ccd
  let info? ← raftInfoOut nat raftInfoIn raftPol.nCol raftPol.nRow st
  pure (st.raft, info?)

/-! ## `makeCamera` -/

/-- The `cameraInfo` facts recorded at the end of `makeCamera`. -/
structure CameraInfo where
  ampSerial : Int
  name : String
  width : Int
  height : Int
  pixelSize : Rat
  widthMm : Rat
  heightMm : Rat
  deriving DecidableEq, Repr

/-- The running state of the Raft loop of `makeCamera`. -/
structure CameraLoopState where
  camera : Camera
  counterIn : Option Int
  xGutter : Option Rat := none
  yGutter : Option Rat := none
  lastRaft : Option Raft := none

/-- The `for raftPol in cameraPol.getArray("Raft")` loop of `makeCamera`. -/
def cameraRaftLoop (force : Bool) (nat : NativeOps) (g : GeomPolicy)
    (nCol nRow : Int) (defDict : List (Id × DefectSet))
    (st : CameraLoopState) : List CameraRaftPol → Except CGError CameraLoopState
  | [] => pure st
  | raftPol :: rest => do
    -- Col, Row = raftPol.getArray("index"); xc, yc = raftPol.getArray("offset")
    let col := raftPol.index.1
    let row := raftPol.index.2
    let xc := raftPol.offset.1
    let yc := raftPol.offset.2
    let raftId : Id := { serial := raftPol.serial, name := raftPol.name }
    let res ← makeRaft force nat g (some raftId) st.counterIn defDict
    let (raft, info?) := res
    let camera := st.camera.addDetector ⟨col, row⟩ ⟨xc, yc⟩ {} raft
    let counterIn := info?.map (·.ampSerial)
    -- `if cameraInfo is not None:` — guess the gutter between detectors
    let gutters ← if st.counterIn.isSome then
        if (col, row) = ((0 : Int), (0 : Int)) then
          pure (some xc, some yc)
        else if (col, row) = (nCol - 1, nRow - 1) then do
          let xg ← if nCol = 1 then
              pure (0 : Rat)
            else match st.xGutter with
              | some xg => pure ((xc - xg) / ((nCol : Rat) - 1)
                  - (nat.raftSizeMm raft).1)
              | none => throw (.nameError "xGutter")
          let yg ← if nRow = 1 then
              pure (0 : Rat)
            else match st.yGutter with
              | some yg => pure ((yc - yg) / ((nRow : Rat) - 1)
                  - (nat.raftSizeMm raft).2)
              | none => throw (.nameError "yGutter")
          pure (some xg, some yg)
        else
          pure (st.xGutter, st.yGutter)
      else
        pure (st.xGutter, st.yGutter)
    let (xGutter, yGutter) := gutters
    cameraRaftLoop force nat g nCol nRow defDict
      { camera := camera, counterIn := counterIn, xGutter := xGutter,
        yGutter := yGutter, lastRaft := some raft } rest

/-- The defect-dictionary step of `makeCamera`:
`geomPolicy.get("Defects").get("Raft").get("Ccd").isPolicy("Defect")` —
each `get` returns the last record under its key — and `makeDefects` when a
`Defect` sub-policy is present, else `{}`. -/
def cameraDefectDict (g : GeomPolicy) :
    Except CGError (List (Id × DefectSet)) := do
  let defRaft ← match g.defects.raft.getLast? with
    | some r => pure r
    | none => throw (.policyError "Defects.Raft")
  let defCcd ← match defRaft.ccd.getLast? with
    | some c => pure c
    | none => throw (.policyError "Defects.Raft.Ccd")
  if defCcd.defect ≠ [] then
    makeDefects g.defects
  else
    pure []

/-- The distortion section of `makeCamera`: fetch the active sub-policy
(the `get` raises when absent) and build the distortion object; any name
other than the two known ones leaves `distort = None`. -/
def cameraDistortion (distortPolicy : DistortionPol) :
    Except CGError (Option Distortion) := do
  let distortActive := distortPolicy.active
  let activePolicy ← match ((distortPolicy.policies.filter
      (fun p => p.1 = distortActive)).getLast?).map Prod.snd with
    | some p => pure p
    | none => throw (.policyError distortActive)
  pure (if distortActive = "NullDistortion" then
      some .nullDistortion
    else if distortActive = "RadialPolyDistortion" then
      some (.radialPoly activePolicy.coeffs activePolicy.coefficientsDistort)
    else
      none)

/-- The `cameraInfo` block at the end of `makeCamera`. -/
def cameraInfoOut (nat : NativeOps) (cameraInfoIn : Option Int)
    (nCol nRow : Int) (cameraName : String) (st : CameraLoopState) :
    Except CGError (Option CameraInfo) := do
  match cameraInfoIn with
  | none => pure none
  | some _ => do
    let counter ← match st.counterIn with
      | some c => pure c
      | none => throw (.nameError "ampSerial")
    let raft ← match st.lastRaft with
      | some r => pure r
      | none => throw (.nameError "raft")
    let xg ← match st.xGutter with
      | some v => pure v
      | none => throw (.nameError "xGutter")
    let yg ← match st.yGutter with
      | some v => pure v
      | none => throw (.nameError "yGutter")
    let (szW, szH) := nat.raftSizeMm raft
    let (apW, apH) := (nat.raftAllPixels raft).getDimensions
    pure (some { ampSerial := counter, name := cameraName,
                 width := nCol * apW, height := nRow * apH,
                 pixelSize := nat.raftPixelSize raft,
                 widthMm := (nCol : Rat) * szW + ((nCol : Rat) - 1) * xg,
                 heightMm := (nRow : Rat) * szH + ((nRow : Rat) - 1) * yg })

/-- The `cameraId` derivation of `makeCamera` (`if not cameraId:` falls back
to the policy's serial and name). -/
def deriveCameraId (cameraId0 : Option Id) (cameraPol : CameraPol) : Id :=
  match cameraId0 with
  | some cid => cid
  | none => { serial := cameraPol.serial, name := cameraPol.name }

/-- `makeCamera(geomPolicy, cameraId, cameraInfo)`; the `cameraInfo`
dictionary argument is represented by the `ampSerial` counter it carries
in. -/
def makeCamera (force : Bool) (nat : NativeOps) (g : GeomPolicy)
    (cameraId0 : Option Id) (cameraInfoIn : Option Int) :
    Except CGError (Camera × Option CameraInfo) := do
  let cameraPol := g.camera
  let cameraId : Id := deriveCameraId cameraId0 cameraPol
  let camera0 : Camera := { id := cameraId, nCol := cameraPol.nCol,
                            nRow := cameraPol.nRow }
  let defDict ← cameraDefectDict g
  let st ← cameraRaftLoop force nat g cameraPol.nCol cameraPol.nRow defDict
    { camera := camera0, counterIn := cameraInfoIn } cameraPol.raft
  -- get the distortion
  let distort ← cameraDistortion cameraPol.distortion
  let camera := st.camera.setDistortion distort
  let info? ← cameraInfoOut nat cameraInfoIn cameraPol.nCol cameraPol.nRow
    camera.id.name st
  pure (camera, info?)

/-! ## `findCcd` and `findRaft` -/

/-- A detector object passed as `parent` to the finders: a `Camera`, a
`Raft`, or a `Ccd`. -/
inductive DetObj where
  | cam (c : Camera)
  | rft (r : Raft)
  | ccdD (c : Ccd)
  deriving DecidableEq, Repr

/-- Modelled from the spec: the native `Raft.findDetector`, absent from
`src/`, which looks up the child detector carrying the given `Id` (`None`
when absent, matching the `if d:` guard in `findRaft`). -/
def Raft.findDetector (r : Raft) (id : Id) : Option Ccd :=
  (r.detectors.find? (fun e => e.det.id = id)).map (·.det)

/-- Modelled from the spec: the native `Camera.findDetector`, absent from
`src/`, analogous to `Raft.findDetector`. -/
def Camera.findDetector (c : Camera) (id : Id) : Option Raft :=
  (c.detectors.find? (fun e => e.det.id = id)).map (·.det)

/-- The Raft branch of `findCcd`: `try: return cast_Ccd(parent.findDetector(id))
except: pass` — `cast_Ccd(None)` raises and the bare `except` swallows it, so
a missing detector falls through to `return None`. -/
def findCcdRaft (r : Raft) (id : Id) : Except CGError (Option Ccd) :=
  match r.findDetector id with
  | some ccd => pure (some ccd)
  | none => pure none

/-- The Camera branch of `findCcd`: recurse into each raft, returning the
first truthy result, else fall through to `return None`. -/
def findCcdScan (id : Id) : List CameraDetEntry → Except CGError (Option Ccd)
  | [] => pure none
  | e :: rest => do
    let ccd? ← findCcdRaft e.det id
    match ccd? with
    | some c => pure (some c)
    | none => findCcdScan id rest

/-- `findCcd(parent, id)`: find the Ccd with the specified `Id` within the
composite. -/
def findCcd (parent : DetObj) (id : Id) : Except CGError (Option Ccd) :=
  match parent with
  | .cam c => findCcdScan id c.detectors
  | .rft r => findCcdRaft r id
  | .ccdD c => if c.id = id then pure (some c) else pure none

/-- `findRaft(parent, id)`: for a `Camera`, look the raft up; for any other
parent whose `Id` matches, the source executes `return raft`, and no name
`raft` is bound in the function or at module level, so Python raises
`NameError`. -/
def findRaft (parent : DetObj) (id : Id) : Except CGError (Option Raft) :=
  match parent with
  | .cam c =>
    match c.findDetector id with
    | some d => pure (some d)
    | none => pure none
  | .rft r => if r.id = id then throw (.nameError "raft") else pure none
  | .ccdD c => if c.id = id then throw (.nameError "raft") else pure none

/-! ## `showCamera.py` -/

/-- Python truthiness of an optional string (`if not args.outputFile:`):
`None` and the empty string are falsy. -/
def truthyOptStr : Option String → Bool
  | none => false
  | some s => s ≠ ""

/-- The observable actions of the `showCamera.py` script, over an abstract
camera type. -/
inductive ScriptAction (Cam : Type) where
  | printErr (msg : String)
  | setInteractive
  | plotFocalPlane (camera : Cam) (useIds : Bool) (showFig : Bool)
      (savePath : Option String)
  | printPrompt
  | readInput
  deriving DecidableEq, Repr

/-- The observable outcome of a script run: its action trace and exit
status. -/
structure ScriptResult (Cam : Type) where
  actions : List (ScriptAction Cam)
  exitCode : Int
  deriving DecidableEq, Repr

/-- The parsed command-line arguments of `showCamera.py`. -/
structure ShowCameraArgs where
  mapper : String
  outputFile : Option String := none
  ids : Bool := false
  deriving DecidableEq, Repr

/-- The environment the script probes: whether the obs package imports,
whether its mapper class is found, and the mapper's camera. -/
structure ObsEnv (Cam : Type) where
  importOk : Bool
  mapperFound : Bool
  camera : Cam

/-- The `__main__` block of `showCamera.py` as a function from the parsed
arguments and the environment to the observable trace and exit status. -/
def showCameraMain {Cam : Type} (env : ObsEnv Cam) (args : ShowCameraArgs) :
    ScriptResult Cam :=
  if ¬ env.importOk then
    { actions := [.printErr ("Unable to import lsst.obs." ++ args.mapper
        ++ " -- is it setup?")],
      exitCode := 1 }
  else if ¬ env.mapperFound then
    { actions := [.printErr "Unable to find mapper {mapperName} in {obsPackageName}"],
      exitCode := 1 }
  else
    let interactive := ! truthyOptStr args.outputFile
    { actions :=
        (if interactive then [ScriptAction.setInteractive] else [])
        ++ [.plotFocalPlane env.camera args.ids interactive args.outputFile]
        ++ (if interactive then [ScriptAction.printPrompt, .readInput] else []),
      exitCode := 0 }

/-! ## Monkey-patch modules -/

/-- The warning categories the patched entry points emit. -/
inductive PyWarning where
  | futureWarning (msg : String)
  | deprecationWarning (msg : String)
  deriving DecidableEq, Repr

/-- A value together with the warnings its computation emitted. -/
structure Traced (α : Type) where
  warnings : List PyWarning
  value : α
  deriving DecidableEq, Repr

/-- Modelled from the spec: `lsst.utils.deprecated.deprecate_pybind11`,
absent from `src/`, wraps a native callable so that each call emits one
deprecation warning carrying the given reason and then delegates to the
original callable with the unchanged arguments. -/
def deprecatePybind11 {α β : Type} (f : α → β) (reason : String) :
    α → Traced β :=
  fun a => ⟨[.deprecationWarning reason], f a⟩

/-- The replacement `Filter.__init__` of `filterContinued.py`: emit a
`FutureWarning`, then call the saved original `Filter._init` with the
unchanged arguments. -/
def filterInit {Args FilterState : Type} (origInit : Args → FilterState) :
    Args → Traced FilterState :=
  fun args =>
    ⟨[.futureWarning "Replaced by FilterLabel. Will be removed after v23."],
     origInit args⟩

/-- The native `Kernel` methods rebound by `kernelContinued.py`, over an
abstract kernel type; the setters take the full argument tuple so a wrapper
observes one call. -/
structure KernelMethods (K : Type) where
  getCtrX : K → Int
  getCtrY : K → Int
  setCtrX : K × Int → K
  setCtrY : K × Int → K

/-- The rebound methods after `kernelContinued.py` runs. -/
structure KernelPatched (K : Type) where
  getCtrX : K → Traced Int
  getCtrY : K → Traced Int
  setCtrX : K × Int → Traced K
  setCtrY : K × Int → Traced K

/-- `kernelContinued.py`: rebind the four centre accessors to
`deprecate_pybind11` wrappers of the same native methods. -/
def patchKernel {K : Type} (m : KernelMethods K) : KernelPatched K :=
  { getCtrX := deprecatePybind11 m.getCtrX
      "Use `getCtr` instead. To be removed after 20.0.0.",
    getCtrY := deprecatePybind11 m.getCtrY
      "Use `getCtr` instead. To be removed after 20.0.0.",
    setCtrX := deprecatePybind11 m.setCtrX
      "Use `setCtr` instead. To be removed after 20.0.0.",
    setCtrY := deprecatePybind11 m.setCtrY
      "Use `setCtr` instead. To be removed after 20.0.0." }

/-- The native `ExposureInfo` component interface, over abstract exposure-info
and component types. -/
structure ExposureInfoOps (E Comp : Type) where
  getComponent : E → String → Comp
  setComponent : E → String → Comp → E
  hasComponent : E → String → Bool

/-- `ExposureInfo.KEY_SUMMARY` added by `exposureInfoContinued.py`. -/
def keySummary : String := "SUMMARY"

/-- `ExposureInfo.getSummary`: delegate to `getComponent('SUMMARY')`. -/
def getSummary {E Comp : Type} (ops : ExposureInfoOps E Comp) (e : E) : Comp :=
  ops.getComponent e "SUMMARY"

/-- `ExposureInfo.setSummary`: delegate to `setComponent('SUMMARY', summary)`. -/
def setSummary {E Comp : Type} (ops : ExposureInfoOps E Comp) (e : E)
    (summary : Comp) : E :=
  ops.setComponent e "SUMMARY" summary

/-- `ExposureInfo.hasSummary`: delegate to `hasComponent('SUMMARY')`. -/
def hasSummary {E Comp : Type} (ops : ExposureInfoOps E Comp) (e : E) : Bool :=
  ops.hasComponent e "SUMMARY"

/-! ## Vocabulary for the claim statements -/

/-- `Col in range(nCol) and Row in range(nRow)`: the grid-membership test of
`makeCcd` and `makeRaft`. -/
def inGrid (nCol nRow col row : Int) : Prop :=
  0 ≤ col ∧ col < nCol ∧ 0 ≤ row ∧ row < nRow

instance (nCol nRow col row : Int) : Decidable (inGrid nCol nRow col row) :=
  inferInstanceAs (Decidable (_ ∧ _))

/-- The passed `ccdId` does not contradict the `ccdDescription`'s identity
(otherwise `makeCcd` fails its identifier check before anything else). -/
def ccdIdArgsAgree (ccdId0 : Option Id) (descr? : Option RaftCcdPol) : Prop :=
  match descr?, ccdId0 with
  | some d, some cid => ({ serial := d.serial, name := d.name } : Id) = cid
  | _, _ => True

instance (ccdId0 : Option Id) (descr? : Option RaftCcdPol) :
    Decidable (ccdIdArgsAgree ccdId0 descr?) := by
  unfold ccdIdArgsAgree
  cases descr? with
  | none => exact inferInstanceAs (Decidable True)
  | some d =>
    cases ccdId0 with
    | none => exact inferInstanceAs (Decidable True)
    | some cid => exact inferInstanceAs (Decidable (_ = _))

/-- The `raft.addDetector` record `makeRaft` builds from one `Ccd` policy
record and the Ccd made for it: grid index, focal-plane offset, and
orientation with the three angles constructed from degrees. -/
def raftEntryOf (cp : RaftCcdPol) (c : Ccd) : RaftDetEntry :=
  { index := ⟨cp.index.1, cp.index.2⟩,
    fpPos := ⟨cp.offset.1, cp.offset.2⟩,
    orient := { nQuarter := cp.nQuarter,
                pitch := ⟨cp.orientation.1, .degrees⟩,
                roll := ⟨cp.orientation.2.1, .degrees⟩,
                yaw := ⟨cp.orientation.2.2, .degrees⟩ },
    det := c }

/-- The `camera.addDetector` record `makeCamera` builds from one `Raft`
policy record and the Raft made for it (default `Orientation()`). -/
def cameraEntryOf (rp : CameraRaftPol) (r : Raft) : CameraDetEntry :=
  { index := ⟨rp.index.1, rp.index.2⟩,
    fpPos := ⟨rp.offset.1, rp.offset.2⟩,
    orient := {},
    det := r }

/-- The serial each amp record receives, given the incoming counter value:
an explicit `serial` field wins, otherwise the running counter, which
becomes one more than the serial just used. -/
def ampSerialSeq (c : Int) : List AmpPol → List Int
  | [] => []
  | r :: rest =>
    let s := r.serial.getD c
    s :: ampSerialSeq (s + 1) rest

/-- The counter value after the amp records are processed. -/
def ampCounterAfter (c : Int) : List AmpPol → Int
  | [] => c
  | r :: rest => ampCounterAfter (r.serial.getD c + 1) rest

/-- The `Id`s of all Ccds contained in a composite, for stating "no Ccd with
the given Id exists". -/
def detCcdIds : DetObj → List Id
  | .cam c => (c.detectors.map (fun e => e.det.detectors.map
      (fun ee => ee.det.id))).flatten
  | .rft r => r.detectors.map (fun e => e.det.id)
  | .ccdD c => [c.id]

/-- Whether a script action is a `plotFocalPlane` call. -/
def ScriptAction.isPlot {Cam : Type} : ScriptAction Cam → Bool
  | .plotFocalPlane _ _ _ _ => true
  | _ => false

/-! ## Concrete sample policies (used by witnesses and counterexamples) -/

/-- A per-type amp bounding-box template. -/
def sampleAmpT : AmpTemplatePol :=
  { ptype := "default", datasec := (0, 0, 9, 9), biassec := (10, 0, 11, 9),
    ewidth := 12, eheight := 10 }

def sampleAmp0 : AmpPol :=
  { index := (0, 0), ptype := "default", flipLR := false,
    diskCoordSys := "AMP", nQuarter := 0, hdu := 0 }

def sampleAmp1 : AmpPol := { sampleAmp0 with index := (1, 0) }

def sampleCcdPol : CcdPol :=
  { serial := some 1, name := some "TestCcd", ptype := "default",
    pixelSize := 10, nCol := 2, nRow := 1, amp := [sampleAmp0, sampleAmp1] }

def sampleElectronic : ElectronicPol :=
  { raft := [ { ccd := [ { name := "*", ptype := "default", amp := [] } ] } ] }

def sampleRaftCcd : RaftCcdPol :=
  { serial := 1, name := "TestCcd", ptype := "default", index := (0, 0),
    offset := (0, 0), nQuarter := 0, orientation := (0, 0, 0) }

def sampleRaftPol : RaftPol :=
  { serial := some 2, name := some "R1", nCol := 1, nRow := 1,
    ccd := [sampleRaftCcd] }

def sampleCameraPol : CameraPol :=
  { serial := 3, name := "Cam", nCol := 1, nRow := 1,
    raft := [ { index := (0, 0), offset := (0, 0), serial := 2, name := "R1" } ],
    distortion := { active := "NullDistortion",
                    policies := [("NullDistortion", {})] } }

def sampleDefectsPol : DefectsPol :=
  { raft := [ { ccd := [ { serial := 99, name := "nodef", defect := [] } ] } ] }

/-- A complete geometry policy on which `makeCamera` succeeds. -/
def sampleG : GeomPolicy :=
  { ccd := [sampleCcdPol], amp := [sampleAmpT], electronic := sampleElectronic,
    raft := .array [sampleRaftPol], camera := sampleCameraPol,
    defects := sampleDefectsPol }

/-- A variant whose Ccd policy expects 2 amplifiers but lists 1. -/
def sampleGCountBad : GeomPolicy :=
  { sampleG with ccd := [{ sampleCcdPol with amp := [sampleAmp0] }] }

/-- A variant with an amp record at grid position (5, 0), outside 2 x 1. -/
def sampleGGridBad : GeomPolicy :=
  { sampleG with
    ccd := [{ sampleCcdPol with
              amp := [sampleAmp0, { sampleAmp1 with index := (5, 0) }] }] }

/-- A variant whose Raft policy announces a 2 x 2 grid but lists a single
Ccd record, for the count-mismatch behavior of `makeRaft`. -/
def sampleGRaftCount : GeomPolicy :=
  { sampleG with
    raft := .array [{ sampleRaftPol with nCol := 2, nRow := 2 }] }

/-- A variant whose Raft policy has its only Ccd record at grid position
(3, 0), outside its 1 x 1 grid. -/
def sampleGRaftGridBad : GeomPolicy :=
  { sampleG with
    raft := .array [{ sampleRaftPol with
                      ccd := [{ sampleRaftCcd with index := (3, 0) }] }] }

/-- Abstract native geometry operations used by witnesses. -/
def constNat : NativeOps :=
  { ccdSizeMm := fun _ => (1, 1), ccdAllPixels := fun _ _ => ⟨⟨0, 0⟩, ⟨0, 0⟩⟩,
    raftSizeMm := fun _ => (1, 1), raftAllPixels := fun _ => ⟨⟨0, 0⟩, ⟨0, 0⟩⟩,
    raftPixelSize := fun _ => 10 }

/-- The defect record of the counterexample: `x1` and `width` both given and
disagreeing (`5 ≠ 0 + 0 - 1`), with a consistent y side. -/
def cexDefect : DefectPol :=
  { x0 := 0, y0 := 0, x1 := some 5, width := some 0, y1 := some 3 }

def cexDefectsPol : DefectsPol :=
  { raft := [ { ccd := [ { serial := 7, name := "D", defect := [cexDefect] } ] } ] }

/-! # Theorems for the claims -/

/-! Small `Except` rewriting helpers used throughout the proofs. -/

theorem pureExceptOk {ε α : Type} (a : α) : (pure a : Except ε α) = .ok a :=
  rfl

theorem exceptOkBind {ε α β : Type} (a : α) (f : α → Except ε β) :
    (Except.ok a : Except ε α) >>= f = f a :=
  rfl

theorem exceptErrorBind {ε α β : Type} (e : ε) (f : α → Except ε β) :
    (Except.error e : Except ε α) >>= f = .error e :=
  rfl

theorem throwExceptError {ε α : Type} (e : ε) :
    (throw e : Except ε α) = .error e :=
  rfl

/-- **C7.** Every monkey-patched entry point is observationally equivalent to
the native original apart from deprecation warnings: the replacement
`Filter.__init__` emits a `FutureWarning` and then calls the saved original
with the unchanged arguments; `kernelContinued` rebinds the four `Kernel`
centre accessors to deprecation wrappers of the same native methods;
`exposureInfoContinued` adds `getSummary`/`setSummary`/`hasSummary`
delegating to `getComponent`/`setComponent`/`hasComponent` with the fixed
key `'SUMMARY'`. -/
theorem monkeypatches_equivalent_to_natives :
    (∀ (Args F : Type) (origInit : Args → F) (args : Args),
        (filterInit origInit args).value = origInit args ∧
        (filterInit origInit args).warnings =
          [.futureWarning "Replaced by FilterLabel. Will be removed after v23."]) ∧
    (∀ (K : Type) (m : KernelMethods K) (k : K) (x : Int),
        ((patchKernel m).getCtrX k).value = m.getCtrX k ∧
        ((patchKernel m).getCtrY k).value = m.getCtrY k ∧
        ((patchKernel m).setCtrX (k, x)).value = m.setCtrX (k, x) ∧
        ((patchKernel m).setCtrY (k, x)).value = m.setCtrY (k, x) ∧
        ((patchKernel m).getCtrX k).warnings =
          [.deprecationWarning "Use `getCtr` instead. To be removed after 20.0.0."] ∧
        ((patchKernel m).getCtrY k).warnings =
          [.deprecationWarning "Use `getCtr` instead. To be removed after 20.0.0."] ∧
        ((patchKernel m).setCtrX (k, x)).warnings =
          [.deprecationWarning "Use `setCtr` instead. To be removed after 20.0.0."] ∧
        ((patchKernel m).setCtrY (k, x)).warnings =
          [.deprecationWarning "Use `setCtr` instead. To be removed after 20.0.0."]) ∧
    (∀ (E Comp : Type) (ops : ExposureInfoOps E Comp) (e : E) (s : Comp),
        getSummary ops e = ops.getComponent e "SUMMARY" ∧
        setSummary ops e s = ops.setComponent e "SUMMARY" s ∧
        hasSummary ops e = ops.hasComponent e "SUMMARY") :=
  ⟨fun _ _ _ _ => ⟨rfl, rfl⟩,
   fun _ _ _ _ => ⟨rfl, rfl, rfl, rfl, rfl, rfl, rfl, rfl⟩,
   fun _ _ _ _ _ => ⟨rfl, rfl, rfl⟩⟩

/-- **C6.** When the obs package imports and the mapper class is found,
`showCamera.py` performs exactly one `plotFocalPlane` call on the mapper's
camera — showing the figure interactively when no `--outputFile` is given,
else saving to it — and exits with status 0. -/
theorem showCamera_plots_focal_plane {Cam : Type} (env : ObsEnv Cam)
    (args : ShowCameraArgs)
    (h1 : env.importOk = true) (h2 : env.mapperFound = true) :
    (showCameraMain env args).exitCode = 0 ∧
    (showCameraMain env args).actions.filter ScriptAction.isPlot =
      [.plotFocalPlane env.camera args.ids (! truthyOptStr args.outputFile)
        args.outputFile] := by
  unfold showCameraMain
  cases htr : truthyOptStr args.outputFile <;>
    simp [h1, h2, htr, ScriptAction.isPlot]

/-- Witness for C6 at a concrete environment and argument set. -/
theorem showCamera_plots_focal_plane_witness :
    (showCameraMain (⟨true, true, ()⟩ : ObsEnv Unit)
        ⟨"decam", none, false⟩).exitCode = 0 ∧
    (showCameraMain (⟨true, true, ()⟩ : ObsEnv Unit)
        ⟨"decam", none, false⟩).actions.filter ScriptAction.isPlot =
      [.plotFocalPlane () false (! truthyOptStr none) none] :=
  showCamera_plots_focal_plane ⟨true, true, ()⟩ ⟨"decam", none, false⟩ rfl rfl

/-- **C2 (counterexample).** The claim says `makeDefects` raises
`RuntimeError` whenever both `x1` and `width` are given but disagree.  Here
`x1 = 5` and `width = 0` are both given and disagree (`5 ≠ 0 + 0 - 1`), yet
`makeDefects` succeeds and records the box (0,0)–(5,3): the source guards the
consistency check with Python truthiness (`if width:`), so a zero width is
never checked. -/
theorem makeDefects_accepts_inconsistent_zero_width :
    makeDefects cexDefectsPol =
      .ok [({ serial := 7, name := "D" }, [⟨⟨⟨0, 0⟩, ⟨5, 3⟩⟩⟩])] := by
  rfl

/-- **C2 (amended).** For every defect record with corner (x0, y0),
`makeDefects` records the box from (x0, y0) to the resolved (x1, y1) in a
`DefectSet` dictionary indexed by the Ccd's `Id`.  A given `width` (resp.
`height`) of 0 behaves as absent (Python truthiness): with `x1` absent, a
nonzero `width` derives `x1 = x0 + width - 1` and an absent-or-zero `width`
raises `RuntimeError`; with `x1` given, a nonzero `width` disagreeing with it
raises `RuntimeError`, and otherwise `x1` is accepted as given; similarly
for `y1`/`height`, and errors propagate. -/
theorem makeDefects_defect_resolution :
    -- with the explicit coordinate absent, a nonzero extent derives it
    (∀ (cid : Id) (x0 y0 c0 w : Int) (axis : String), w ≠ 0 →
        resolveDefectCoord cid x0 y0 c0 none (some w) axis = .ok (c0 + w - 1)) ∧
    -- with the explicit coordinate absent and the extent absent or zero,
    -- RuntimeError
    (∀ (cid : Id) (x0 y0 c0 : Int) (len : Option Int) (axis : String),
        ¬ truthyOptInt len →
        ∃ m, resolveDefectCoord cid x0 y0 c0 none len axis =
          .error (.runtimeError m)) ∧
    -- with both given, a nonzero extent disagreeing with the coordinate is
    -- a RuntimeError
    (∀ (cid : Id) (x0 y0 c0 c1 w : Int) (axis : String), w ≠ 0 →
        c1 ≠ c0 + w - 1 →
        ∃ m, resolveDefectCoord cid x0 y0 c0 (some c1) (some w) axis =
          .error (.runtimeError m)) ∧
    -- with both given and either a zero/absent extent or agreement, the
    -- explicit coordinate is accepted
    (∀ (cid : Id) (x0 y0 c0 c1 : Int) (len : Option Int) (axis : String),
        (¬ truthyOptInt len ∨ c1 = c0 + len.getD 0 - 1) →
        resolveDefectCoord cid x0 y0 c0 (some c1) len axis = .ok c1) ∧
    -- the box is built from the two resolved coordinates
    (∀ (cid : Id) (d : DefectPol) (x1r y1r : Int),
        resolveDefectCoord cid d.x0 d.y0 d.x0 d.x1 d.width "x1/width" = .ok x1r →
        resolveDefectCoord cid d.x0 d.y0 d.y0 d.y1 d.height "y1/height" = .ok y1r →
        processDefect cid d = .ok ⟨⟨d.x0, d.y0⟩, ⟨x1r, y1r⟩⟩) ∧
    (∀ (cid : Id) (d : DefectPol) (e : CGError),
        resolveDefectCoord cid d.x0 d.y0 d.x0 d.x1 d.width "x1/width" = .error e →
        processDefect cid d = .error e) ∧
    (∀ (cid : Id) (d : DefectPol) (x1r : Int) (e : CGError),
        resolveDefectCoord cid d.x0 d.y0 d.x0 d.x1 d.width "x1/width" = .ok x1r →
        resolveDefectCoord cid d.x0 d.y0 d.y0 d.y1 d.height "y1/height" = .error e →
        processDefect cid d = .error e) ∧
    -- the box is recorded in a DefectSet stored under the Ccd's Id
    (∀ (serial : Int) (nm : String) (d : DefectPol) (bbox : Box2I),
        processDefect { serial := serial, name := nm } d = .ok bbox →
        makeDefects ⟨[⟨[⟨serial, nm, [d]⟩]⟩]⟩ =
          .ok [({ serial := serial, name := nm }, [⟨bbox⟩])]) ∧
    (∀ (serial : Int) (nm : String) (d : DefectPol) (e : CGError),
        processDefect { serial := serial, name := nm } d = .error e →
        makeDefects ⟨[⟨[⟨serial, nm, [d]⟩]⟩]⟩ = .error e) := by
  refine ⟨?_, ?_, ?_, ?_, ?_, ?_, ?_, ?_, ?_⟩
  · intro cid x0 y0 c0 w axis hw
    simp [resolveDefectCoord, truthyOptInt, hw, pureExceptOk]
  · intro cid x0 y0 c0 len axis hlen
    exact ⟨_, by
      simp only [resolveDefectCoord]
      rw [if_neg (by simpa using hlen)]
      rfl⟩
  · intro cid x0 y0 c0 c1 w axis hw hne
    exact ⟨_, by
      simp only [resolveDefectCoord]
      rw [if_pos (by simp [truthyOptInt, hw]), if_pos (by simpa using hne)]
      rfl⟩
  · intro cid x0 y0 c0 c1 len axis hacc
    rcases hacc with hlen | heq
    · simp only [resolveDefectCoord]
      rw [if_neg (by simpa using hlen)]
      rfl
    · simp only [resolveDefectCoord]
      by_cases hlen : truthyOptInt len
      · rw [if_pos (by simpa using hlen), if_neg (by simpa using heq)]
        rfl
      · rw [if_neg (by simpa using hlen)]
        rfl
  · intro cid d x1r y1r hx hy
    simp [processDefect, hx, hy, exceptOkBind, pureExceptOk]
  · intro cid d e hx
    simp [processDefect, hx, exceptErrorBind]
  · intro cid d x1r e hx hy
    simp [processDefect, hx, hy, exceptOkBind, exceptErrorBind]
  · intro serial nm d bbox hproc
    simp [makeDefects, defectRaftLoop, defectCcdLoop, defectLoop, hproc,
      pyDictInsert, exceptOkBind, pureExceptOk]
  · intro serial nm d e hproc
    simp [makeDefects, defectRaftLoop, defectCcdLoop, defectLoop, hproc,
      exceptOkBind, exceptErrorBind, pureExceptOk]

/-- Witness for the amended C2: at the concrete record with `x1` absent and
`width = 0`, the record is rejected with a `RuntimeError` that propagates out
of `makeDefects`. -/
theorem makeDefects_defect_resolution_witness :
    ∃ m, makeDefects
        ⟨[⟨[⟨7, "D", [{ x0 := 0, y0 := 0, width := some 0, y1 := some 3 }]⟩]⟩]⟩ =
      .error (.runtimeError m) := by
  obtain ⟨m, hm⟩ := makeDefects_defect_resolution.2.1 { serial := 7, name := "D" }
    0 0 0 (some 0) "x1/width" (by decide)
  exact ⟨m, makeDefects_defect_resolution.2.2.2.2.2.2.2.2 7 "D"
    { x0 := 0, y0 := 0, width := some 0, y1 := some 3 } (.runtimeError m)
    (makeDefects_defect_resolution.2.2.2.2.2.1 { serial := 7, name := "D" }
      { x0 := 0, y0 := 0, width := some 0, y1 := some 3 } (.runtimeError m) hm)⟩

/-! Helper lemmas about the finders. -/

theorem findCcdRaft_isOk (r : Raft) (id : Id) :
    ∃ v, findCcdRaft r id = .ok v := by
  unfold findCcdRaft
  cases h : r.findDetector id <;> exact ⟨_, rfl⟩

theorem findCcdRaft_none (r : Raft) (id : Id)
    (h : id ∉ r.detectors.map (fun e => e.det.id)) :
    findCcdRaft r id = .ok none := by
  have hfd : r.findDetector id = none := by
    unfold Raft.findDetector
    rw [List.find?_eq_none.mpr]
    · rfl
    · intro e he
      simp only [decide_eq_true_eq]
      intro heq
      exact h (List.mem_map.mpr ⟨e, he, heq⟩)
  simp [findCcdRaft, hfd, pureExceptOk]

theorem findCcdScan_none (id : Id) (dets : List CameraDetEntry)
    (h : id ∉ (dets.map (fun e => e.det.detectors.map
      (fun ee => ee.det.id))).flatten) :
    findCcdScan id dets = .ok none := by
  induction dets with
  | nil => rfl
  | cons e rest ih =>
    simp only [List.map_cons, List.flatten_cons, List.mem_append] at h
    push_neg at h
    have hr : findCcdRaft e.det id = .ok none := findCcdRaft_none e.det id h.1
    simp only [findCcdScan, hr, exceptOkBind]
    exact ih h.2

theorem findCcdScan_isOk (id : Id) (dets : List CameraDetEntry) :
    ∃ v, findCcdScan id dets = .ok v := by
  induction dets with
  | nil => exact ⟨none, rfl⟩
  | cons e rest ih =>
    obtain ⟨v, hv⟩ := findCcdRaft_isOk e.det id
    cases v with
    | some c =>
      exact ⟨some c, by simp [findCcdScan, hv, exceptOkBind, pureExceptOk]⟩
    | none =>
      obtain ⟨w, hw⟩ := ih
      exact ⟨w, by simp [findCcdScan, hv, exceptOkBind, hw]⟩

/-- **C9.** `findRaft` is not total on non-Camera parents: when the parent's
`Id` matches, the `return raft` statement looks up an unbound name and
raises `NameError`; it returns `None` only when the id does not match.  By
contrast `findCcd` never raises, and returns `None` whenever no Ccd with the
given `Id` exists in the composite. -/
theorem findRaft_raises_findCcd_returns_none :
    (∀ (r : Raft) (id : Id), r.id = id →
        findRaft (.rft r) id = .error (.nameError "raft")) ∧
    (∀ (r : Raft) (id : Id), r.id ≠ id → findRaft (.rft r) id = .ok none) ∧
    (∀ (c : Ccd) (id : Id), c.id = id →
        findRaft (.ccdD c) id = .error (.nameError "raft")) ∧
    (∀ (c : Ccd) (id : Id), c.id ≠ id → findRaft (.ccdD c) id = .ok none) ∧
    (∀ (parent : DetObj) (id : Id), id ∉ detCcdIds parent →
        findCcd parent id = .ok none) ∧
    (∀ (parent : DetObj) (id : Id), ∃ v, findCcd parent id = .ok v) := by
  refine ⟨?_, ?_, ?_, ?_, ?_, ?_⟩
  · intro r id h
    simp [findRaft, h, throwExceptError]
  · intro r id h
    simp [findRaft, h, pureExceptOk]
  · intro c id h
    simp [findRaft, h, throwExceptError]
  · intro c id h
    simp [findRaft, h, pureExceptOk]
  · intro parent id h
    cases parent with
    | cam c => exact findCcdScan_none id c.detectors (by simpa [detCcdIds] using h)
    | rft r => exact findCcdRaft_none r id (by simpa [detCcdIds] using h)
    | ccdD c =>
      have hne : ¬ c.id = id := fun heq => by
        simp [detCcdIds, heq] at h
      simp [findCcd, hne, pureExceptOk]
  · intro parent id
    cases parent with
    | cam c => exact findCcdScan_isOk id c.detectors
    | rft r => exact findCcdRaft_isOk r id
    | ccdD c =>
      by_cases h : c.id = id
      · exact ⟨some c, by simp [findCcd, h, pureExceptOk]⟩
      · exact ⟨none, by simp [findCcd, h, pureExceptOk]⟩

/-! Helper lemmas about `makeCcd`'s amplifier loop. -/

theorem buildAmp_fields {g : GeomPolicy} {el : Electronics} {nm : String}
    {serial col row : Int} {ampType : String} {flipLR : Bool}
    {cs : DiskCoordSys} {nq : Int} {a : Amp} {dims : Box2I × Int × Int}
    (h : buildAmp g el nm serial col row ampType flipLR cs nq = .ok (a, dims)) :
    a.id.serial = serial ∧ a.id.name = "ID" ++ toString serial ∧
    a.id.index = some (col, row) ∧ a.chipIndex = ⟨col, row⟩ ∧
    a.nQuarter = nq ∧ a.flipLR = flipLR ∧ a.diskCoordSys = cs := by
  unfold buildAmp at h
  repeat' split at h
  all_goals
    simp only [pureExceptOk, throwExceptError, exceptOkBind,
      exceptErrorBind] at h
  all_goals
    first
      | exact Except.noConfusion h
      | (simp only [Except.ok.injEq, Prod.mk.injEq] at h
         obtain ⟨ha, -⟩ := h
         subst ha
         exact ⟨rfl, rfl, rfl, rfl, rfl, rfl, rfl⟩)

/-- Success characterization of the amplifier loop under `force = False`:
every record passes the grid check and contributes, in order, exactly one
amp built by `buildAmp` with the serial assigned by the running counter. -/
theorem ampLoop_ok (g : GeomPolicy) (nCol nRow : Int) (el : Electronics) :
    ∀ (recs : List AmpPol) (st st' : AmpLoopState),
      ampLoop false g nCol nRow el st recs = .ok st' →
      ∃ newAmps : List Amp,
        st'.ccd = { st.ccd with amps := st.ccd.amps ++ newAmps } ∧
        newAmps.length = recs.length ∧
        st'.counter = ampCounterAfter st.counter recs ∧
        newAmps.map (fun a => a.id.serial) = ampSerialSeq st.counter recs ∧
        st'.ampSerial0 = (match st.ampSerial0 with
          | some s => some s
          | none => (ampSerialSeq st.counter recs).head?) ∧
        (∀ rec ∈ recs, inGrid nCol nRow rec.index.1 rec.index.2) ∧
        List.Forall₂ (fun (rs : AmpPol × Int) (a : Amp) =>
            ∃ coordSys dims,
              diskCoordSysOfString rs.1.diskCoordSys = some coordSys ∧
              buildAmp g el st.ccd.id.name rs.2 rs.1.index.1 rs.1.index.2
                rs.1.ptype rs.1.flipLR coordSys rs.1.nQuarter = .ok (a, dims))
          (recs.zip (ampSerialSeq st.counter recs)) newAmps := by
  intro recs
  induction recs with
  | nil =>
    intro st st' h
    have hst : st = st' := by simpa [ampLoop, pureExceptOk] using h
    refine ⟨[], ?_, rfl, ?_, rfl, ?_, by simp, ?_⟩
    · rw [← hst]
      simp
    · rw [← hst]
      rfl
    · rw [← hst]
      cases st.ampSerial0 <;> simp [ampSerialSeq]
    · exact List.Forall₂.nil
  | cons rec rest ih =>
    intro st st' h
    rw [ampLoop] at h
    rw [show (match rec.serial with
          | some s => s
          | none => st.counter) = rec.serial.getD st.counter from by
        cases rec.serial <;> rfl] at h
    cases hcs : diskCoordSysOfString rec.diskCoordSys with
    | none =>
      rw [hcs] at h
      simp [throwExceptError, exceptErrorBind] at h
    | some cs =>
      rw [hcs] at h
      simp only [pureExceptOk, exceptOkBind] at h
      by_cases hg : inGrid nCol nRow rec.index.1 rec.index.2
      · rw [if_neg (by simpa [inGrid] using hg)] at h
        cases hb : buildAmp g el st.ccd.id.name (rec.serial.getD st.counter)
            rec.index.1 rec.index.2 rec.ptype rec.flipLR cs rec.nQuarter with
        | error e =>
          rw [hb] at h
          simp [exceptErrorBind] at h
        | ok built =>
          obtain ⟨amp, dims⟩ := built
          rw [hb] at h
          simp only [exceptOkBind] at h
          obtain ⟨restAmps, hccd, hlen, hcounter, hserials, hserial0, hgrid,
            hfa⟩ := ih _ _ h
          refine ⟨amp :: restAmps, ?_, ?_, ?_, ?_, ?_, ?_, ?_⟩
          · rw [hccd]
            simp [Ccd.addAmp, List.append_assoc]
          · simpa using hlen
          · simpa [ampCounterAfter] using hcounter
          · simp only [List.map_cons, ampSerialSeq]
            rw [(buildAmp_fields hb).1, hserials]
          · rw [hserial0]
            simp only [ampSerialSeq]
            cases hs0 : st.ampSerial0 <;> simp [hs0]
          · intro r hr
            rcases List.mem_cons.mp hr with hre | hrest
            · rw [hre]
              exact hg
            · exact hgrid r hrest
          · simp only [ampSerialSeq, List.zip_cons_cons]
            refine List.Forall₂.cons ⟨cs, dims, hcs, hb⟩ ?_
            simpa [Ccd.addAmp] using hfa
      · rw [if_pos (by simpa [inGrid] using hg)] at h
        simp [throwExceptError] at h

/-! Helper lemmas for error classification and bind inversion. -/

/-- The computation failed with some `RuntimeError`. -/
def isRuntimeErr {α : Type} : Except CGError α → Prop
  | .error (.runtimeError _) => True
  | _ => False

theorem isRuntimeErr_iff {α : Type} (x : Except CGError α) :
    isRuntimeErr x ↔ ∃ m, x = .error (.runtimeError m) := by
  cases x with
  | ok a => simp [isRuntimeErr]
  | error e => cases e <;> simp [isRuntimeErr]

theorem exceptBind_ok_inv {ε α β : Type} {x : Except ε α} {f : α → Except ε β}
    {b : β} (h : x >>= f = .ok b) : ∃ a, x = .ok a ∧ f a = .ok b := by
  cases x with
  | ok a => exact ⟨a, rfl, h⟩
  | error e =>
    rw [exceptErrorBind] at h
    exact Except.noConfusion h

theorem buildAmp_error_runtime {g : GeomPolicy} {el : Electronics}
    {nm : String} {serial col row : Int} {ampType : String} {flipLR : Bool}
    {cs : DiskCoordSys} {nq : Int} {e : CGError}
    (h : buildAmp g el nm serial col row ampType flipLR cs nq = .error e) :
    ∃ m, e = CGError.runtimeError m := by
  unfold buildAmp at h
  repeat' split at h
  all_goals
    simp only [pureExceptOk, throwExceptError, exceptOkBind,
      exceptErrorBind] at h
  all_goals
    first
      | exact Except.noConfusion h
      | (injection h with h'
         exact ⟨_, h'.symm⟩)

/-- With all disk coordinate systems valid, an out-of-grid amp record makes
the loop fail with a `RuntimeError` (either its own grid message or an
earlier record's electronics/bounding-box lookup failure). -/
theorem ampLoop_grid_error (g : GeomPolicy) (nCol nRow : Int)
    (el : Electronics) :
    ∀ (recs : List AmpPol) (st : AmpLoopState),
      (∃ rec ∈ recs, ¬ inGrid nCol nRow rec.index.1 rec.index.2) →
      (∀ rec ∈ recs, (diskCoordSysOfString rec.diskCoordSys).isSome) →
      isRuntimeErr (ampLoop false g nCol nRow el st recs) := by
  intro recs
  induction recs with
  | nil =>
    intro st h _
    obtain ⟨r, hr, _⟩ := h
    simp at hr
  | cons rec rest ih =>
    intro st hbad hcs
    obtain ⟨cs, hcse⟩ := Option.isSome_iff_exists.mp (hcs rec (by simp))
    rw [ampLoop, show (match rec.serial with
          | some s => s
          | none => st.counter) = rec.serial.getD st.counter from by
        cases rec.serial <;> rfl, hcse]
    simp only [pureExceptOk, exceptOkBind]
    by_cases hg : inGrid nCol nRow rec.index.1 rec.index.2
    · rw [if_neg (by simpa [inGrid] using hg)]
      cases hb : buildAmp g el st.ccd.id.name (rec.serial.getD st.counter)
          rec.index.1 rec.index.2 rec.ptype rec.flipLR cs rec.nQuarter with
      | error e =>
        obtain ⟨m, hm⟩ := buildAmp_error_runtime hb
        subst hm
        simp [exceptErrorBind, isRuntimeErr]
      | ok built =>
        simp only [exceptOkBind]
        apply ih
        · obtain ⟨r, hr, hbadr⟩ := hbad
          rcases List.mem_cons.mp hr with hre | hrest
          · exact absurd hg (hre ▸ hbadr)
          · exact ⟨r, hrest, hbadr⟩
        · intro r hr
          exact hcs r (List.mem_cons_of_mem _ hr)
    · rw [if_pos (by simpa [inGrid] using hg)]
      simp [throwExceptError, isRuntimeErr]

/-- When no record carries an explicit serial, the assigned serials are
consecutive from the incoming counter, which advances by the record
count. -/
theorem ampSerialSeq_all_none :
    ∀ (recs : List AmpPol) (c : Int), (∀ r ∈ recs, r.serial = none) →
      ampSerialSeq c recs =
        (List.range recs.length).map (fun i : Nat => c + (i : Int)) ∧
      ampCounterAfter c recs = c + recs.length := by
  intro recs
  induction recs with
  | nil =>
    intro c h
    simp [ampSerialSeq, ampCounterAfter]
  | cons r rest ih =>
    intro c h
    have hr : r.serial = none := h r (by simp)
    obtain ⟨h1, h2⟩ := ih (c + 1) (fun x hx => h x (by simp [hx]))
    refine ⟨?_, ?_⟩
    · simp only [ampSerialSeq, hr, Option.getD_none, h1, List.length_cons]
      rw [List.range_succ_eq_map, List.map_cons, List.map_map]
      refine congrArg₂ _ (by simp) ?_
      apply List.map_congr_left
      intro i _
      simp only [Function.comp_apply]
      push_cast
      ring
    · simp only [ampCounterAfter, hr, Option.getD_none, h2, List.length_cons]
      push_cast
      ring

/-! Helper lemmas about `makeCcd` as a whole. -/

theorem resolveCcdIdArg_ok {ccdId0 : Option Id} {descr? : Option RaftCcdPol}
    (h : ccdIdArgsAgree ccdId0 descr?) :
    ∃ v, resolveCcdIdArg ccdId0 descr? = .ok v := by
  cases descr? with
  | none => exact ⟨ccdId0, rfl⟩
  | some d =>
    cases ccdId0 with
    | none => exact ⟨some { serial := d.serial, name := d.name }, rfl⟩
    | some cid =>
      have h' : ({ serial := d.serial, name := d.name } : Id) = cid := by
        simpa [ccdIdArgsAgree] using h
      refine ⟨some cid, ?_⟩
      simp only [resolveCcdIdArg]
      rw [if_neg (by simp [h'])]
      rfl

/-- Success inversion for `makeCcd` with `force = False`: the policy was
selected, the amplifier count matched, and the result is the final state of
the amplifier loop together with the `ccdInfo` block output. -/
theorem makeCcd_ok_inv {g : GeomPolicy} {ccdId0 : Option Id}
    {infoIn : Option Int} {defectDict : List (Id × DefectSet)}
    {descr? : Option RaftCcdPol} {ccd : Ccd} {info? : Option CcdInfo}
    (h : makeCcd false g ccdId0 infoIn defectDict descr? = .ok (ccd, info?)) :
    ∃ (ccdId? : Option Id) (ccdPol : CcdPol) (st : AmpLoopState),
      resolveCcdIdArg ccdId0 descr? = .ok ccdId? ∧
      selectCcdPol g descr? = some ccdPol ∧
      ccdPol.nCol * ccdPol.nRow = (ccdPol.amp.length : Int) ∧
      ampLoop false g ccdPol.nCol ccdPol.nRow
        (buildElectronics (deriveCcdId ccdId? ccdPol).name ccdPol.ptype
          g.electronic.raft)
        { counter := infoIn.getD 0,
          ccd := initCcd (deriveCcdId ccdId? ccdPol) ccdPol.pixelSize
            defectDict }
        ccdPol.amp = .ok st ∧
      ccd = st.ccd ∧
      ccdInfoOut infoIn ccdPol st = .ok info? := by
  unfold makeCcd at h
  obtain ⟨ccdId?, h1, h⟩ := exceptBind_ok_inv h
  cases h2 : selectCcdPol g descr? with
  | none =>
    rw [h2] at h
    simp [throwExceptError, exceptErrorBind] at h
  | some p =>
    rw [h2] at h
    simp only [pureExceptOk, exceptOkBind] at h
    by_cases h3 : p.nCol * p.nRow ≠ (p.amp.length : Int)
    · rw [if_pos h3, if_neg (by simp)] at h
      rw [show (throw (CGError.runtimeError ("Expected location of "
            ++ toString (p.nCol * p.nRow) ++ " amplifiers, got "
            ++ toString p.amp.length)) : Except CGError PUnit)
          = Except.error (CGError.runtimeError ("Expected location of "
            ++ toString (p.nCol * p.nRow) ++ " amplifiers, got "
            ++ toString p.amp.length)) from rfl, exceptErrorBind] at h
      exact Except.noConfusion h
    · rw [if_neg h3] at h
      obtain ⟨st, h4, h⟩ := exceptBind_ok_inv h
      obtain ⟨i, h5, h⟩ := exceptBind_ok_inv h
      simp only [pureExceptOk, Except.ok.injEq, Prod.mk.injEq] at h
      obtain ⟨hc, hi⟩ := h
      exact ⟨ccdId?, p, st, h1, rfl, not_not.mp h3, h4, hc.symm, hi ▸ h5⟩

theorem makeCcd_count_error {g : GeomPolicy} {ccdId0 : Option Id}
    {infoIn : Option Int} {defectDict : List (Id × DefectSet)}
    {descr? : Option RaftCcdPol} {ccdPol : CcdPol}
    (hsel : selectCcdPol g descr? = some ccdPol)
    (hid : ccdIdArgsAgree ccdId0 descr?)
    (hmis : ccdPol.nCol * ccdPol.nRow ≠ (ccdPol.amp.length : Int)) :
    ∃ m, makeCcd false g ccdId0 infoIn defectDict descr? =
      .error (.runtimeError m) := by
  obtain ⟨v, h1⟩ := resolveCcdIdArg_ok hid
  exact ⟨_, by
    unfold makeCcd
    rw [h1, exceptOkBind, hsel]
    simp only [pureExceptOk, exceptOkBind]
    rw [if_pos hmis, if_neg (by simp)]
    rfl⟩

theorem makeCcd_grid_error {g : GeomPolicy} {ccdId0 : Option Id}
    {infoIn : Option Int} {defectDict : List (Id × DefectSet)}
    {descr? : Option RaftCcdPol} {ccdPol : CcdPol}
    (hsel : selectCcdPol g descr? = some ccdPol)
    (hid : ccdIdArgsAgree ccdId0 descr?)
    (hbad : ∃ rec ∈ ccdPol.amp,
      ¬ inGrid ccdPol.nCol ccdPol.nRow rec.index.1 rec.index.2)
    (hcs : ∀ rec ∈ ccdPol.amp, (diskCoordSysOfString rec.diskCoordSys).isSome) :
    ∃ m, makeCcd false g ccdId0 infoIn defectDict descr? =
      .error (.runtimeError m) := by
  obtain ⟨v, h1⟩ := resolveCcdIdArg_ok hid
  rw [← isRuntimeErr_iff]
  unfold makeCcd
  rw [h1, exceptOkBind, hsel]
  simp only [pureExceptOk, exceptOkBind]
  by_cases h3 : ccdPol.nCol * ccdPol.nRow ≠ (ccdPol.amp.length : Int)
  · rw [if_pos h3, if_neg (by simp)]
    simp [throwExceptError, exceptErrorBind, isRuntimeErr]
  · rw [if_neg h3]
    have hloop := ampLoop_grid_error g ccdPol.nCol ccdPol.nRow
      (buildElectronics (deriveCcdId v ccdPol).name ccdPol.ptype
        g.electronic.raft)
      ccdPol.amp
      { counter := infoIn.getD 0,
        ccd := initCcd (deriveCcdId v ccdPol) ccdPol.pixelSize defectDict }
      hbad hcs
    rw [isRuntimeErr_iff] at hloop
    obtain ⟨m, hm⟩ := hloop
    rw [hm]
    simp [exceptErrorBind, isRuntimeErr]

/-- The defect scan of `initCcd` changes neither the amps nor the id. -/
theorem initCcd_amps_id (cid : Id) (ps : Rat) (dd : List (Id × DefectSet)) :
    (initCcd cid ps dd).amps = [] ∧ (initCcd cid ps dd).id = cid := by
  unfold initCcd
  suffices hgen : ∀ (c : Ccd),
      (dd.foldl (fun c kv => if cid = kv.1 then c.setDefects kv.2 else c)
        c).amps = c.amps ∧
      (dd.foldl (fun c kv => if cid = kv.1 then c.setDefects kv.2 else c)
        c).id = c.id by
    exact hgen { id := cid, pixelSize := ps }
  induction dd with
  | nil => intro c; exact ⟨rfl, rfl⟩
  | cons kv rest ih =>
    intro c
    simp only [List.foldl_cons]
    obtain ⟨ha, hb⟩ := ih (if cid = kv.1 then c.setDefects kv.2 else c)
    constructor
    · rw [ha]
      by_cases h : cid = kv.1 <;> simp [h, Ccd.setDefects]
    · rw [hb]
      by_cases h : cid = kv.1 <;> simp [h, Ccd.setDefects]

theorem ccdInfoOut_some_inv {s0 : Int} {ccdPol : CcdPol} {st : AmpLoopState}
    {info? : Option CcdInfo}
    (h : ccdInfoOut (some s0) ccdPol st = .ok info?) :
    ∃ dims inf, st.lastDims = some dims ∧ info? = some inf ∧
      inf.ampSerial = st.counter ∧ inf.ampIdMin = st.ampSerial0 ∧
      inf.ampIdMax = st.counter - 1 := by
  unfold ccdInfoOut at h
  cases hld : st.lastDims with
  | none =>
    rw [hld] at h
    exact Except.noConfusion h
  | some dims =>
    rw [hld] at h
    have h' := Except.ok.inj h
    exact ⟨dims, _, rfl, h'.symm, rfl, rfl, rfl⟩

theorem makeCcd_info_none {g : GeomPolicy} {ccdId0 : Option Id}
    {defectDict : List (Id × DefectSet)} {descr? : Option RaftCcdPol}
    {c : Ccd} {i : Option CcdInfo}
    (h : makeCcd false g ccdId0 none defectDict descr? = .ok (c, i)) :
    i = none := by
  obtain ⟨_, _, st, -, -, -, -, -, hout⟩ := makeCcd_ok_inv h
  have h2 : (Except.ok (none : Option CcdInfo) :
      Except CGError (Option CcdInfo)) = .ok i := hout
  exact (Except.ok.inj h2).symm

/-- **C3.** Every Ccd built by `makeCcd` is composed of the Amps listed in
the CCD policy: with `force = False`, a mismatch between the amp count and
`nCol*nRow` raises `RuntimeError`; an amp record outside the grid raises
`RuntimeError` (given that all records name a valid disk coordinate system,
whose check precedes the grid check); otherwise every listed amp is added to
the returned Ccd. -/
theorem makeCcd_count_and_grid_checks (g : GeomPolicy) (ccdId0 : Option Id)
    (infoIn : Option Int) (defectDict : List (Id × DefectSet))
    (descr? : Option RaftCcdPol) (ccdPol : CcdPol)
    (hsel : selectCcdPol g descr? = some ccdPol)
    (hid : ccdIdArgsAgree ccdId0 descr?) :
    (ccdPol.nCol * ccdPol.nRow ≠ (ccdPol.amp.length : Int) →
      ∃ m, makeCcd false g ccdId0 infoIn defectDict descr? =
        .error (.runtimeError m)) ∧
    ((∃ rec ∈ ccdPol.amp,
        ¬ inGrid ccdPol.nCol ccdPol.nRow rec.index.1 rec.index.2) →
     (∀ rec ∈ ccdPol.amp, (diskCoordSysOfString rec.diskCoordSys).isSome) →
      ∃ m, makeCcd false g ccdId0 infoIn defectDict descr? =
        .error (.runtimeError m)) ∧
    (∀ ccd info?,
      makeCcd false g ccdId0 infoIn defectDict descr? = .ok (ccd, info?) →
      ccd.amps.length = ccdPol.amp.length) := by
  refine ⟨fun hmis => makeCcd_count_error hsel hid hmis,
    fun hbad hcs => makeCcd_grid_error hsel hid hbad hcs,
    fun ccd info? h => ?_⟩
  obtain ⟨ccdId?, ccdPol', st, h1, hsel', hcnt, h4, hc, hout⟩ :=
    makeCcd_ok_inv h
  have hpp : ccdPol = ccdPol' := by
    rw [hsel'] at hsel
    exact (Option.some.inj hsel).symm
  subst hpp
  obtain ⟨newAmps, hccd, hlen, -, -, -, -, -⟩ := ampLoop_ok _ _ _ _ _ _ _ h4
  rw [hc, hccd]
  simp [(initCcd_amps_id _ _ _).1, hlen]

/-- Witness for C3: the sample policy expecting 2 amplifiers but listing 1
is rejected with a `RuntimeError`. -/
theorem makeCcd_count_and_grid_checks_witness :
    ∃ m, makeCcd false sampleGCountBad none none [] none =
      .error (.runtimeError m) :=
  (makeCcd_count_and_grid_checks sampleGCountBad none none [] none
    { sampleCcdPol with amp := [sampleAmp0] } rfl trivial).1 (by decide)

/-- **C8.** Amplifier serials form a consecutive counter: when `makeCcd` is
called with a `ccdInfo` dictionary carrying counter `s0` and no amp record
has an explicit `serial`, the amps get consecutive serials `s0, s0+1, …`,
the counter advances by exactly the number of amps, and
`ampIdMin`/`ampIdMax` bracket exactly the assigned serials. -/
theorem makeCcd_consecutive_serials (g : GeomPolicy) (ccdId0 : Option Id)
    (defectDict : List (Id × DefectSet)) (descr? : Option RaftCcdPol)
    (ccdPol : CcdPol) (s0 : Int) (ccd : Ccd) (info : CcdInfo)
    (hsel : selectCcdPol g descr? = some ccdPol)
    (hnoser : ∀ rec ∈ ccdPol.amp, rec.serial = none)
    (h : makeCcd false g ccdId0 (some s0) defectDict descr? =
      .ok (ccd, some info)) :
    ccd.amps.length = ccdPol.amp.length ∧
    info.ampSerial = s0 + ccdPol.amp.length ∧
    info.ampIdMin = some s0 ∧
    info.ampIdMax = s0 + ccdPol.amp.length - 1 ∧
    ccd.amps.map (fun a => a.id.serial) =
      (List.range ccdPol.amp.length).map (fun i : Nat => s0 + (i : Int)) := by
  obtain ⟨ccdId?, ccdPol', st, h1, hsel', hcnt, h4, hc, hout⟩ :=
    makeCcd_ok_inv h
  have hpp : ccdPol = ccdPol' := by
    rw [hsel'] at hsel
    exact (Option.some.inj hsel).symm
  subst hpp
  obtain ⟨newAmps, hccd, hlen, hcounter, hserials, hserial0, -, -⟩ :=
    ampLoop_ok _ _ _ _ _ _ _ h4
  obtain ⟨hseq, hcnt2⟩ := ampSerialSeq_all_none ccdPol.amp s0 hnoser
  obtain ⟨dims, inf, hld, hisome, hSer, hMin, hMax⟩ := ccdInfoOut_some_inv hout
  obtain rfl : info = inf := Option.some.inj hisome
  have hamps : ccd.amps = newAmps := by
    rw [hc, hccd]
    simp [(initCcd_amps_id _ _ _).1]
  have hrecs_ne : ccdPol.amp ≠ [] := by
    intro hnil
    rw [hnil] at h4
    have hst : ({ counter := (some s0).getD 0,
                  ccd := initCcd (deriveCcdId ccdId? ccdPol) ccdPol.pixelSize
                    defectDict } : AmpLoopState) = st := by
      simpa [ampLoop, pureExceptOk] using h4
    rw [← hst] at hld
    simp at hld
  have hlen' : ccd.amps.length = ccdPol.amp.length := by
    rw [hamps, hlen]
  refine ⟨hlen', ?_, ?_, ?_, ?_⟩
  · rw [hSer, hcounter]
    simpa [Option.getD] using hcnt2
  · rw [hMin, hserial0]
    cases hr : ccdPol.amp with
    | nil => exact absurd hr hrecs_ne
    | cons r rest =>
      have hrs : r.serial = none := hnoser r (by rw [hr]; simp)
      simp [ampSerialSeq, hr, hrs, Option.getD]
  · rw [hMax, hcounter]
    simp only [Option.getD_some]
    rw [hcnt2]
  · rw [hamps, hserials]
    simpa [Option.getD] using hseq

/-- Witness for C8 at the sample policy with incoming counter 5: the two
amps get serials 5 and 6, the counter ends at 7, and
`ampIdMin`/`ampIdMax` are 5 and 6. -/
theorem makeCcd_consecutive_serials_witness :
    (makeCcd false sampleG none (some 5) [] none).map
        (fun p => (p.1.amps.map (fun a => a.id.serial),
          p.2.map (fun i => (i.ampSerial, i.ampIdMin, i.ampIdMax)))) =
      .ok ([5, 6], some (7, some 5, 6)) := by
  have hshape : (match makeCcd false sampleG none (some 5) [] none with
      | .ok (_, some _) => true
      | _ => false) = true := by decide
  cases hmk : makeCcd false sampleG none (some 5) [] none with
  | error e =>
    rw [hmk] at hshape
    simp at hshape
  | ok p =>
    obtain ⟨ccd, info?⟩ := p
    cases info? with
    | none =>
      rw [hmk] at hshape
      simp at hshape
    | some info =>
      obtain ⟨hlen, hser, hmin, hmax, hmap⟩ :=
        makeCcd_consecutive_serials sampleG none [] none sampleCcdPol 5
          ccd info rfl (by decide) hmk
      simp only [Except.map, Option.map, hmap, hser, hmin, hmax,
        show sampleCcdPol.amp.length = 2 from rfl, Except.ok.injEq]
      decide

/-! Helper lemmas about `makeRaft`'s Ccd loop. -/

theorem ampSerialSeq_length (recs : List AmpPol) :
    ∀ c, (ampSerialSeq c recs).length = recs.length := by
  induction recs with
  | nil => intro c; rfl
  | cons r rest ih =>
    intro c
    simp [ampSerialSeq, ih]

theorem exists_forall₂_of_forall_exists {α β : Type} {P : α → β → Prop} :
    ∀ (l : List α), (∀ a ∈ l, ∃ b, P a b) → ∃ bs, List.Forall₂ P l bs := by
  intro l
  induction l with
  | nil => exact fun _ => ⟨[], List.Forall₂.nil⟩
  | cons a rest ih =>
    intro h
    obtain ⟨b, hb⟩ := h a (by simp)
    obtain ⟨bs, hbs⟩ := ih (fun x hx => h x (by simp [hx]))
    exact ⟨b :: bs, List.Forall₂.cons hb hbs⟩

theorem forall₂_zip_left {α β γ : Type} {P : α × β → γ → Prop} :
    ∀ (l1 : List α) (l2 : List β) (l3 : List γ),
      List.Forall₂ P (l1.zip l2) l3 → l1.length = l2.length →
      List.Forall₂ (fun a c => ∃ b, P (a, b) c) l1 l3 := by
  intro l1
  induction l1 with
  | nil =>
    intro l2 l3 h hlen
    cases l3 with
    | nil => exact List.Forall₂.nil
    | cons c cs =>
      rw [List.zip_nil_left] at h
      cases h
  | cons a as ih =>
    intro l2 l3 h hlen
    cases l2 with
    | nil => simp at hlen
    | cons b bs =>
      cases l3 with
      | nil => rw [List.zip_cons_cons] at h; cases h
      | cons c cs =>
        rw [List.zip_cons_cons] at h
        cases h with
        | cons hab htail =>
          exact List.Forall₂.cons ⟨b, hab⟩
            (ih bs cs htail (by simpa using hlen))

/-- `makeRaft` as the bind chain of its three steps: the `if False:` count
check contributes nothing. -/
theorem makeRaft_eq (force : Bool) (nat : NativeOps) (g : GeomPolicy)
    (raftId0 : Option Id) (infoIn : Option Int)
    (dd : List (Id × DefectSet)) :
    makeRaft force nat g raftId0 infoIn dd =
      (selectRaftPol g.raft raftId0) >>= fun raftPol =>
      (raftCcdLoop force nat g raftPol.nCol raftPol.nRow dd
        { raft := { id := deriveRaftId raftId0 raftPol,
                    nCol := raftPol.nCol, nRow := raftPol.nRow },
          counterIn := infoIn } raftPol.ccd) >>= fun st =>
      (raftInfoOut nat infoIn raftPol.nCol raftPol.nRow st) >>= fun info? =>
      pure (st.raft, info?) := by
  unfold makeRaft
  cases selectRaftPol g.raft raftId0 with
  | error e => rfl
  | ok raftPol =>
    simp only [exceptOkBind]
    by_cases hcnt : raftPol.nCol * raftPol.nRow ≠ (raftPol.ccd.length : Int)
    · rw [if_pos hcnt, if_neg not_false]
      rfl
    · rw [if_neg hcnt]
      rfl

/-- `makeRaft` with `raftInfo = None` calls `makeCcd` without `ccdInfo`, so
the info component of a successful call is `None`. -/
theorem makeRaft_info_none {nat : NativeOps} {g : GeomPolicy}
    {raftId0 : Option Id} {dd : List (Id × DefectSet)} {r : Raft}
    {i : Option RaftInfo}
    (h : makeRaft false nat g raftId0 none dd = .ok (r, i)) : i = none := by
  rw [makeRaft_eq] at h
  obtain ⟨raftPol, h1, h⟩ := exceptBind_ok_inv h
  obtain ⟨st, h3, h⟩ := exceptBind_ok_inv h
  obtain ⟨i2, h4, h⟩ := exceptBind_ok_inv h
  have h4' : (Except.ok (none : Option RaftInfo) :
      Except CGError (Option RaftInfo)) = .ok i2 := h4
  have hi2 : i2 = none := (Except.ok.inj h4').symm
  subst hi2
  have h5 := Except.ok.inj h
  simpa using (congrArg Prod.snd h5).symm

/-- Success inversion for `makeRaft`. -/
theorem makeRaft_ok_inv {nat : NativeOps} {g : GeomPolicy}
    {raftId0 : Option Id} {infoIn : Option Int}
    {dd : List (Id × DefectSet)} {raft : Raft} {info? : Option RaftInfo}
    (h : makeRaft false nat g raftId0 infoIn dd = .ok (raft, info?)) :
    ∃ raftPol st,
      selectRaftPol g.raft raftId0 = .ok raftPol ∧
      raftCcdLoop false nat g raftPol.nCol raftPol.nRow dd
        { raft := { id := deriveRaftId raftId0 raftPol,
                    nCol := raftPol.nCol, nRow := raftPol.nRow },
          counterIn := infoIn } raftPol.ccd = .ok st ∧
      raft = st.raft ∧
      raftInfoOut nat infoIn raftPol.nCol raftPol.nRow st = .ok info? := by
  rw [makeRaft_eq] at h
  obtain ⟨raftPol, h1, h⟩ := exceptBind_ok_inv h
  obtain ⟨st, h3, h⟩ := exceptBind_ok_inv h
  obtain ⟨i2, h4, h⟩ := exceptBind_ok_inv h
  simp only [pureExceptOk, Except.ok.injEq, Prod.mk.injEq] at h
  obtain ⟨hr, hi⟩ := h
  exact ⟨raftPol, st, h1, h3, hr.symm, hi ▸ h4⟩

/-- Success characterization of the Ccd loop with no `raftInfo`: every
record passes the grid check, `makeCcd` succeeds on it, and the raft
collects one `addDetector` entry per record, in order. -/
theorem raftCcdLoop_ok_none (nat : NativeOps) (g : GeomPolicy)
    (nCol nRow : Int) (dd : List (Id × DefectSet)) :
    ∀ (recs : List RaftCcdPol) (st st' : RaftLoopState),
      st.counterIn = none →
      raftCcdLoop false nat g nCol nRow dd st recs = .ok st' →
      ∃ ccds : List Ccd,
        List.Forall₂ (fun (cp : RaftCcdPol) (c : Ccd) =>
            inGrid nCol nRow cp.index.1 cp.index.2 ∧
            makeCcd false g (some { serial := cp.serial, name := cp.name })
              none dd (some cp) = .ok (c, none))
          recs ccds ∧
        st'.raft = { st.raft with detectors :=
          st.raft.detectors ++ List.zipWith raftEntryOf recs ccds } ∧
        st'.counterIn = none := by
  intro recs
  induction recs with
  | nil =>
    intro st st' hcin h
    have hst : st = st' := by simpa [raftCcdLoop, pureExceptOk] using h
    refine ⟨[], List.Forall₂.nil, ?_, by rw [← hst]; exact hcin⟩
    rw [← hst]
    simp
  | cons cp rest ih =>
    intro st st' hcin h
    rw [raftCcdLoop, hcin] at h
    simp only [pureExceptOk, exceptOkBind, Option.isSome_none,
      Bool.false_eq_true, if_false] at h
    by_cases hg : inGrid nCol nRow cp.index.1 cp.index.2
    · rw [if_neg (by simpa [inGrid] using hg)] at h
      obtain ⟨res, hmc, h⟩ := exceptBind_ok_inv h
      obtain ⟨ccd, info?⟩ := res
      have hmc' : makeCcd false g
          (some { serial := cp.serial, name := cp.name }) none dd (some cp) =
          .ok (ccd, info?) := hmc
      have hin : info? = none := makeCcd_info_none hmc'
      subst hin
      obtain ⟨ccds, hfa, hraft, hcin'⟩ := ih _ _ rfl h
      refine ⟨ccd :: ccds, List.Forall₂.cons ⟨hg, hmc'⟩ hfa, ?_, hcin'⟩
      rw [hraft]
      simp [Raft.addDetector, raftEntryOf, List.append_assoc]
    · rw [if_pos (by simpa [inGrid] using hg)] at h
      simp [throwExceptError] at h

/-- With the records' `makeCcd` calls succeeding, an out-of-grid record
makes the loop raise `RuntimeError`. -/
theorem raftCcdLoop_grid_error (nat : NativeOps) (g : GeomPolicy)
    (nCol nRow : Int) (dd : List (Id × DefectSet)) :
    ∀ (recs : List RaftCcdPol) (st : RaftLoopState),
      st.counterIn = none →
      (∃ cp ∈ recs, ¬ inGrid nCol nRow cp.index.1 cp.index.2) →
      (∀ cp ∈ recs, ∃ c,
        makeCcd false g (some { serial := cp.serial, name := cp.name })
          none dd (some cp) = .ok (c, none)) →
      isRuntimeErr (raftCcdLoop false nat g nCol nRow dd st recs) := by
  intro recs
  induction recs with
  | nil =>
    intro st _ hbad _
    obtain ⟨r, hr, _⟩ := hbad
    simp at hr
  | cons cp rest ih =>
    intro st hcin hbad hok
    rw [raftCcdLoop, hcin]
    simp only [pureExceptOk, exceptOkBind, Option.isSome_none,
      Bool.false_eq_true, if_false]
    by_cases hg : inGrid nCol nRow cp.index.1 cp.index.2
    · rw [if_neg (by simpa [inGrid] using hg)]
      obtain ⟨c, hc⟩ := hok cp (by simp)
      rw [hc]
      simp only [exceptOkBind]
      apply ih _ rfl
      · obtain ⟨r, hr, hbadr⟩ := hbad
        rcases List.mem_cons.mp hr with hre | hrest
        · exact absurd hg (hre ▸ hbadr)
        · exact ⟨r, hrest, hbadr⟩
      · intro r hr
        exact hok r (List.mem_cons_of_mem _ hr)
    · rw [if_pos (by simpa [inGrid] using hg)]
      simp [throwExceptError, isRuntimeErr]

/-- Conversely, when every record is in the grid and its `makeCcd` call
succeeds, the loop succeeds and appends one entry per record. -/
theorem raftCcdLoop_all_ok (nat : NativeOps) (g : GeomPolicy)
    (nCol nRow : Int) (dd : List (Id × DefectSet)) :
    ∀ (recs : List RaftCcdPol) (ccds : List Ccd) (st : RaftLoopState),
      st.counterIn = none →
      List.Forall₂ (fun (cp : RaftCcdPol) (c : Ccd) =>
          makeCcd false g (some { serial := cp.serial, name := cp.name })
            none dd (some cp) = .ok (c, none)) recs ccds →
      (∀ cp ∈ recs, inGrid nCol nRow cp.index.1 cp.index.2) →
      ∃ st', raftCcdLoop false nat g nCol nRow dd st recs = .ok st' ∧
        st'.raft = { st.raft with detectors :=
          st.raft.detectors ++ List.zipWith raftEntryOf recs ccds } ∧
        st'.counterIn = none := by
  intro recs
  induction recs with
  | nil =>
    intro ccds st hcin hfa _
    cases hfa
    exact ⟨st, rfl, by simp, hcin⟩
  | cons cp rest ih =>
    intro ccds st hcin hfa hgrid
    cases hfa with
    | cons hc htail =>
      rename_i c ccds'
      obtain ⟨st', hst', hraft, hcin'⟩ := ih ccds'
        { raft := st.raft.addDetector ⟨cp.index.1, cp.index.2⟩
            ⟨cp.offset.1, cp.offset.2⟩
            { nQuarter := cp.nQuarter,
              pitch := ⟨cp.orientation.1, .degrees⟩,
              roll := ⟨cp.orientation.2.1, .degrees⟩,
              yaw := ⟨cp.orientation.2.2, .degrees⟩ } c,
          counterIn := none, xGutter := st.xGutter, yGutter := st.yGutter,
          lastCcd := some c } rfl htail
        (fun x hx => hgrid x (List.mem_cons_of_mem _ hx))
      refine ⟨st', ?_, ?_, hcin'⟩
      · rw [raftCcdLoop, hcin]
        simp only [pureExceptOk, exceptOkBind, Option.isSome_none,
          Bool.false_eq_true, if_false]
        rw [if_neg (by simpa [inGrid] using hgrid cp (by simp)), hc]
        simp only [exceptOkBind]
        exact hst'
      · rw [hraft]
        simp [Raft.addDetector, raftEntryOf, List.append_assoc]

/-- **C5.** `makeRaft` places each Ccd of the selected Raft policy at the
grid index, focal-plane offset and orientation (with `nQuarter` and the
pitch/roll/yaw angles built from degrees) of its configuration record, in
order; with `force = False` an out-of-grid record raises `RuntimeError`. -/
theorem makeRaft_places_ccds (nat : NativeOps) (g : GeomPolicy)
    (raftId0 : Option Id) (dd : List (Id × DefectSet)) (raftPol : RaftPol)
    (hsel : selectRaftPol g.raft raftId0 = .ok raftPol) :
    (∀ raft info?, makeRaft false nat g raftId0 none dd = .ok (raft, info?) →
      info? = none ∧
      ∃ ccds, List.Forall₂ (fun (cp : RaftCcdPol) (c : Ccd) =>
          inGrid raftPol.nCol raftPol.nRow cp.index.1 cp.index.2 ∧
          makeCcd false g (some { serial := cp.serial, name := cp.name })
            none dd (some cp) = .ok (c, none)) raftPol.ccd ccds ∧
        raft.detectors = List.zipWith raftEntryOf raftPol.ccd ccds) ∧
    ((∃ cp ∈ raftPol.ccd,
        ¬ inGrid raftPol.nCol raftPol.nRow cp.index.1 cp.index.2) →
     (∀ cp ∈ raftPol.ccd, ∃ c,
        makeCcd false g (some { serial := cp.serial, name := cp.name })
          none dd (some cp) = .ok (c, none)) →
      ∃ m, makeRaft false nat g raftId0 none dd =
        .error (.runtimeError m)) := by
  constructor
  · intro raft info? h
    refine ⟨makeRaft_info_none h, ?_⟩
    obtain ⟨raftPol', st, hsel', hloop, hr, hout⟩ := makeRaft_ok_inv h
    have hpp : raftPol = raftPol' := by
      rw [hsel'] at hsel
      exact (Except.ok.inj hsel).symm
    subst hpp
    obtain ⟨ccds, hfa, hraft, -⟩ :=
      raftCcdLoop_ok_none nat g raftPol.nCol raftPol.nRow dd raftPol.ccd
        _ _ rfl hloop
    refine ⟨ccds, hfa, ?_⟩
    rw [hr, hraft]
    simp
  · intro hbad hok
    rw [← isRuntimeErr_iff]
    unfold makeRaft
    rw [hsel, exceptOkBind]
    simp only [pureExceptOk, exceptOkBind]
    have hloop := raftCcdLoop_grid_error nat g raftPol.nCol raftPol.nRow dd
      raftPol.ccd
      { raft := { id := deriveRaftId raftId0 raftPol,
                  nCol := raftPol.nCol, nRow := raftPol.nRow },
        counterIn := none } rfl hbad hok
    rw [isRuntimeErr_iff] at hloop
    obtain ⟨m, hm⟩ := hloop
    by_cases hcnt : raftPol.nCol * raftPol.nRow ≠ (raftPol.ccd.length : Int)
    · rw [if_pos hcnt, if_neg (by simp)]
      simp only [pureExceptOk, exceptOkBind, hm, exceptErrorBind]
      simp [isRuntimeErr]
    · rw [if_neg hcnt]
      simp only [pureExceptOk, exceptOkBind, hm, exceptErrorBind]
      simp [isRuntimeErr]

/-- Witness for C5 at the sample policy: the single Ccd is placed at grid
(0,0), offset (0,0), with the default orientation built from degrees. -/
theorem makeRaft_places_ccds_witness :
    ∃ raft, makeRaft false constNat sampleG none none [] = .ok (raft, none) ∧
      ∃ ccds, List.Forall₂ (fun (cp : RaftCcdPol) (c : Ccd) =>
          inGrid sampleRaftPol.nCol sampleRaftPol.nRow cp.index.1 cp.index.2 ∧
          makeCcd false sampleG
            (some { serial := cp.serial, name := cp.name })
            none [] (some cp) = .ok (c, none)) sampleRaftPol.ccd ccds ∧
        raft.detectors = List.zipWith raftEntryOf sampleRaftPol.ccd ccds := by
  obtain ⟨p, hp⟩ : ∃ p, makeRaft false constNat sampleG none none [] = .ok p :=
    ⟨_, rfl⟩
  obtain ⟨raft, info?⟩ := p
  have hinfo : info? = none := makeRaft_info_none hp
  subst hinfo
  obtain ⟨-, ccds, hfa, hdet⟩ :=
    (makeRaft_places_ccds constNat sampleG none [] sampleRaftPol rfl).1
      raft none hp
  exact ⟨raft, hp, ccds, hfa, hdet⟩

/-- **C10.** `makeRaft` never enforces the Ccd count: the count check sits
inside an `if False:` block, so a Raft policy whose record count differs
from `nCol*nRow` still builds a raft from exactly the listed records —
unlike `makeCcd`, which does raise `RuntimeError` on an amplifier count
mismatch. -/
theorem makeRaft_ignores_ccd_count (nat : NativeOps) (g : GeomPolicy)
    (raftId0 : Option Id) (dd : List (Id × DefectSet)) (raftPol : RaftPol)
    (hsel : selectRaftPol g.raft raftId0 = .ok raftPol)
    (hmis : raftPol.nCol * raftPol.nRow ≠ (raftPol.ccd.length : Int))
    (hgrid : ∀ cp ∈ raftPol.ccd,
      inGrid raftPol.nCol raftPol.nRow cp.index.1 cp.index.2)
    (hccds : ∀ cp ∈ raftPol.ccd, ∃ c,
      makeCcd false g (some { serial := cp.serial, name := cp.name })
        none dd (some cp) = .ok (c, none)) :
    (∃ raft, makeRaft false nat g raftId0 none dd = .ok (raft, none) ∧
      raft.detectors.length = raftPol.ccd.length) ∧
    (∀ (g2 : GeomPolicy) (cid0 : Option Id) (infoIn2 : Option Int)
        (dd2 : List (Id × DefectSet)) (descr2 : Option RaftCcdPol)
        (ccdPol2 : CcdPol),
      selectCcdPol g2 descr2 = some ccdPol2 →
      ccdIdArgsAgree cid0 descr2 →
      ccdPol2.nCol * ccdPol2.nRow ≠ (ccdPol2.amp.length : Int) →
      ∃ m, makeCcd false g2 cid0 infoIn2 dd2 descr2 =
        .error (.runtimeError m)) := by
  constructor
  · obtain ⟨ccds, hfa⟩ := exists_forall₂_of_forall_exists raftPol.ccd hccds
    obtain ⟨st', hloop, hraft, -⟩ :=
      raftCcdLoop_all_ok nat g raftPol.nCol raftPol.nRow dd raftPol.ccd ccds
        { raft := { id := deriveRaftId raftId0 raftPol,
                    nCol := raftPol.nCol, nRow := raftPol.nRow },
          counterIn := none } rfl hfa hgrid
    refine ⟨st'.raft, ?_, ?_⟩
    · unfold makeRaft
      rw [hsel, exceptOkBind]
      simp only [pureExceptOk, exceptOkBind]
      rw [if_pos hmis, if_neg (by simp)]
      simp only [pureExceptOk, exceptOkBind, hloop]
      rfl
    · rw [hraft]
      simp [List.length_zipWith, List.Forall₂.length_eq hfa]
  · intro g2 cid0 infoIn2 dd2 descr2 ccdPol2 hsel2 hid2 hmis2
    exact makeCcd_count_error hsel2 hid2 hmis2

/-- Witness for C10: the sample Raft policy announcing a 2×2 grid with a
single listed Ccd still builds a one-detector raft. -/
theorem makeRaft_ignores_ccd_count_witness :
    ∃ raft, makeRaft false constNat sampleGRaftCount none none [] =
        .ok (raft, none) ∧
      raft.detectors.length = 1 := by
  have hccds : ∀ cp ∈ ({ sampleRaftPol with nCol := 2, nRow := 2 } :
      RaftPol).ccd, ∃ c,
      makeCcd false sampleGRaftCount
        (some { serial := cp.serial, name := cp.name })
        none [] (some cp) = .ok (c, none) := by
    intro cp hcp
    have : cp = sampleRaftCcd := by
      simpa [sampleRaftPol] using hcp
    subst this
    exact ⟨_, rfl⟩
  obtain ⟨raft, hmk, hlen⟩ :=
    (makeRaft_ignores_ccd_count constNat sampleGRaftCount none []
      { sampleRaftPol with nCol := 2, nRow := 2 } rfl (by decide) (by decide)
      hccds).1
  exact ⟨raft, hmk, hlen⟩

/-! Helper lemmas about `makeCamera`'s Raft loop and the distortion step. -/

theorem cameraRaftLoop_distortion (force : Bool) (nat : NativeOps)
    (g : GeomPolicy) (nCol nRow : Int) (dd : List (Id × DefectSet)) :
    ∀ (recs : List CameraRaftPol) (st st' : CameraLoopState),
      cameraRaftLoop force nat g nCol nRow dd st recs = .ok st' →
      st'.camera.distortionSets = st.camera.distortionSets := by
  intro recs
  induction recs with
  | nil =>
    intro st st' h
    have hst : st = st' := by simpa [cameraRaftLoop, pureExceptOk] using h
    rw [← hst]
  | cons rp rest ih =>
    intro st st' h
    rw [cameraRaftLoop] at h
    obtain ⟨res, hmr, h⟩ := exceptBind_ok_inv h
    obtain ⟨raft, info?⟩ := res
    simp only [pureExceptOk, exceptOkBind, throwExceptError,
      exceptErrorBind] at h
    repeat' split at h
    all_goals first
      | exact Except.noConfusion h
      | (rw [ih _ _ h]; rfl)

/-- `cameraInfoOut` with no dictionary returns `None`. -/
theorem cameraInfoOut_none {nat : NativeOps} {nCol nRow : Int} {nm : String}
    {st : CameraLoopState} {i : Option CameraInfo}
    (h : cameraInfoOut nat none nCol nRow nm st = .ok i) : i = none := by
  have h2 : (Except.ok (none : Option CameraInfo) :
      Except CGError (Option CameraInfo)) = .ok i := h
  exact (Except.ok.inj h2).symm

/-- Success characterization of the Raft loop with no `cameraInfo`: each
record yields one `makeRaft` result, added as one `addDetector` entry with
the record's index, offset and the default `Orientation()`. -/
theorem cameraRaftLoop_ok_none (nat : NativeOps) (g : GeomPolicy)
    (nCol nRow : Int) (dd : List (Id × DefectSet)) :
    ∀ (recs : List CameraRaftPol) (st st' : CameraLoopState),
      st.counterIn = none →
      cameraRaftLoop false nat g nCol nRow dd st recs = .ok st' →
      ∃ rafts : List Raft,
        List.Forall₂ (fun (rp : CameraRaftPol) (r : Raft) =>
            makeRaft false nat g (some { serial := rp.serial, name := rp.name })
              none dd = .ok (r, none)) recs rafts ∧
        st'.camera = { st.camera with detectors :=
          st.camera.detectors ++ List.zipWith cameraEntryOf recs rafts } ∧
        st'.counterIn = none := by
  intro recs
  induction recs with
  | nil =>
    intro st st' hcin h
    have hst : st = st' := by simpa [cameraRaftLoop, pureExceptOk] using h
    refine ⟨[], List.Forall₂.nil, ?_, by rw [← hst]; exact hcin⟩
    rw [← hst]
    simp
  | cons rp rest ih =>
    intro st st' hcin h
    rw [cameraRaftLoop, hcin] at h
    simp only [pureExceptOk, exceptOkBind, Option.isSome_none,
      Bool.false_eq_true, if_false] at h
    obtain ⟨res, hmr, h⟩ := exceptBind_ok_inv h
    obtain ⟨raft, info?⟩ := res
    have hmr' : makeRaft false nat g
        (some { serial := rp.serial, name := rp.name }) none dd =
        .ok (raft, info?) := hmr
    have hin : info? = none := makeRaft_info_none hmr'
    subst hin
    obtain ⟨rafts, hfa, hcam, hcin'⟩ := ih _ _ rfl h
    refine ⟨raft :: rafts, List.Forall₂.cons hmr' hfa, ?_, hcin'⟩
    rw [hcam]
    simp [Camera.addDetector, cameraEntryOf, List.append_assoc]

theorem cameraDistortion_ok_inv {dp : DistortionPol} {d : Option Distortion}
    (h : cameraDistortion dp = .ok d) :
    ∃ ap, ((dp.policies.filter (fun p => p.1 = dp.active)).getLast?).map
        Prod.snd = some ap ∧
      d = (if dp.active = "NullDistortion" then some Distortion.nullDistortion
        else if dp.active = "RadialPolyDistortion" then
          some (.radialPoly ap.coeffs ap.coefficientsDistort)
        else none) := by
  unfold cameraDistortion at h
  simp only [pureExceptOk, exceptOkBind, throwExceptError,
    exceptErrorBind] at h
  cases hap : ((dp.policies.filter (fun p => p.1 = dp.active)).getLast?).map
      Prod.snd with
  | none =>
    rw [hap] at h
    exact Except.noConfusion h
  | some ap =>
    rw [hap] at h
    exact ⟨ap, rfl, (Except.ok.inj h).symm⟩

/-- Success inversion for `makeCamera`. -/
theorem makeCamera_ok_inv {force : Bool} {nat : NativeOps} {g : GeomPolicy}
    {cameraId0 : Option Id} {infoIn : Option Int} {camera : Camera}
    {info? : Option CameraInfo}
    (h : makeCamera force nat g cameraId0 infoIn = .ok (camera, info?)) :
    ∃ defDict st distort,
      cameraDefectDict g = .ok defDict ∧
      cameraRaftLoop force nat g g.camera.nCol g.camera.nRow defDict
        { camera := { id := deriveCameraId cameraId0 g.camera,
                      nCol := g.camera.nCol, nRow := g.camera.nRow },
          counterIn := infoIn } g.camera.raft = .ok st ∧
      cameraDistortion g.camera.distortion = .ok distort ∧
      camera = st.camera.setDistortion distort ∧
      cameraInfoOut nat infoIn g.camera.nCol g.camera.nRow
        (st.camera.setDistortion distort).id.name st = .ok info? := by
  unfold makeCamera at h
  obtain ⟨defDict, h1, h⟩ := exceptBind_ok_inv h
  obtain ⟨st, h2, h⟩ := exceptBind_ok_inv h
  obtain ⟨distort, h3, h⟩ := exceptBind_ok_inv h
  obtain ⟨i2, h4, h⟩ := exceptBind_ok_inv h
  simp only [pureExceptOk, Except.ok.injEq, Prod.mk.injEq] at h
  obtain ⟨hc, hi⟩ := h
  exact ⟨defDict, st, distort, h1, h2, h3, hc.symm, hi ▸ h4⟩

/-- **C4.** Every Camera returned by `makeCamera` has its distortion set
exactly once, from the policy's `Camera.Distortion` section: a
`NullDistortion` for active name `"NullDistortion"`, a
`RadialPolyDistortion` built from `coeffs` and `coefficientsDistort` for
`"RadialPolyDistortion"`, and `None` for any other active name. -/
theorem makeCamera_sets_distortion_once (force : Bool) (nat : NativeOps)
    (g : GeomPolicy) (cameraId0 : Option Id) (infoIn : Option Int)
    (camera : Camera) (info? : Option CameraInfo)
    (h : makeCamera force nat g cameraId0 infoIn = .ok (camera, info?)) :
    ∃ ap, ((g.camera.distortion.policies.filter
        (fun p => p.1 = g.camera.distortion.active)).getLast?).map
          Prod.snd = some ap ∧
      camera.distortionSets =
        [if g.camera.distortion.active = "NullDistortion" then
            some Distortion.nullDistortion
          else if g.camera.distortion.active = "RadialPolyDistortion" then
            some (.radialPoly ap.coeffs ap.coefficientsDistort)
          else none] := by
  obtain ⟨defDict, st, distort, h1, h2, h3, hc, hout⟩ := makeCamera_ok_inv h
  obtain ⟨ap, hap, hd⟩ := cameraDistortion_ok_inv h3
  have hpre := cameraRaftLoop_distortion force nat g g.camera.nCol
    g.camera.nRow defDict g.camera.raft _ _ h2
  refine ⟨ap, hap, ?_⟩
  rw [hc]
  simp only [Camera.setDistortion, hpre, ← hd]
  rfl

/-- Witness for C4 at the sample policy, whose active distortion is
`NullDistortion`. -/
theorem makeCamera_sets_distortion_once_witness :
    ∃ camera info?, makeCamera false constNat sampleG none none =
        .ok (camera, info?) ∧
      ∃ ap, ((sampleCameraPol.distortion.policies.filter
          (fun p => p.1 = sampleCameraPol.distortion.active)).getLast?).map
            Prod.snd = some ap ∧
        camera.distortionSets =
          [if sampleCameraPol.distortion.active = "NullDistortion" then
              some Distortion.nullDistortion
            else if sampleCameraPol.distortion.active = "RadialPolyDistortion"
              then some (.radialPoly ap.coeffs ap.coefficientsDistort)
            else none] := by
  obtain ⟨p, hp⟩ : ∃ p, makeCamera false constNat sampleG none none = .ok p :=
    ⟨_, rfl⟩
  obtain ⟨camera, info?⟩ := p
  obtain ⟨ap, hap, hds⟩ := makeCamera_sets_distortion_once false constNat
    sampleG none none camera info? hp
  exact ⟨camera, info?, hp, ap, hap, hds⟩

/-- **C1.** `makeCamera` assembles the full Amp → Ccd → Raft → Camera
hierarchy from the configuration records: (camera layer) every successful
`makeCamera` builds one `makeRaft` result per `Raft` record of the Camera
policy and adds it via `camera.addDetector`; (raft layer) every successful
`makeRaft` builds one `makeCcd` result per `Ccd` record of the selected
Raft policy and adds it via `raft.addDetector`; (ccd layer) every
successful `makeCcd` constructs one `cameraGeom.Amp` per `Amp` record of
the selected Ccd policy and adds it via `ccd.addAmp`, the amp carrying its
record's grid index, `nQuarter` and `flipLR`. -/
theorem makeCamera_assembles_hierarchy (nat : NativeOps) (g : GeomPolicy) :
    (∀ (cameraId0 : Option Id) (camera : Camera)
        (info? : Option CameraInfo),
      makeCamera false nat g cameraId0 none = .ok (camera, info?) →
      info? = none ∧
      ∃ defDict, cameraDefectDict g = .ok defDict ∧
      ∃ rafts, List.Forall₂ (fun (rp : CameraRaftPol) (r : Raft) =>
          makeRaft false nat g (some { serial := rp.serial, name := rp.name })
            none defDict = .ok (r, none)) g.camera.raft rafts ∧
        camera.detectors = List.zipWith cameraEntryOf g.camera.raft rafts) ∧
    (∀ (raftId0 : Option Id) (dd : List (Id × DefectSet)) (raftPol : RaftPol)
        (raft : Raft) (info? : Option RaftInfo),
      selectRaftPol g.raft raftId0 = .ok raftPol →
      makeRaft false nat g raftId0 none dd = .ok (raft, info?) →
      ∃ ccds, List.Forall₂ (fun (cp : RaftCcdPol) (c : Ccd) =>
          makeCcd false g (some { serial := cp.serial, name := cp.name })
            none dd (some cp) = .ok (c, none)) raftPol.ccd ccds ∧
        raft.detectors = List.zipWith raftEntryOf raftPol.ccd ccds) ∧
    (∀ (ccdId0 : Option Id) (dd : List (Id × DefectSet))
        (descr? : Option RaftCcdPol) (ccdPol : CcdPol) (ccd : Ccd)
        (info? : Option CcdInfo),
      selectCcdPol g descr? = some ccdPol →
      makeCcd false g ccdId0 none dd descr? = .ok (ccd, info?) →
      ccd.amps.length = ccdPol.amp.length ∧
      List.Forall₂ (fun (rec : AmpPol) (a : Amp) =>
          a.id.index = some rec.index ∧
          a.chipIndex = ⟨rec.index.1, rec.index.2⟩ ∧
          a.nQuarter = rec.nQuarter ∧ a.flipLR = rec.flipLR)
        ccdPol.amp ccd.amps) := by
  refine ⟨?_, ?_, ?_⟩
  · intro cameraId0 camera info? h
    obtain ⟨defDict, st, distort, h1, h2, h3, hc, hout⟩ := makeCamera_ok_inv h
    have hin : info? = none := by
      apply cameraInfoOut_none
      exact hout
    refine ⟨hin, defDict, h1, ?_⟩
    obtain ⟨rafts, hfa, hcam, -⟩ := cameraRaftLoop_ok_none nat g
      g.camera.nCol g.camera.nRow defDict g.camera.raft _ _ rfl h2
    refine ⟨rafts, hfa, ?_⟩
    rw [hc]
    rw [show (st.camera.setDistortion distort).detectors =
        st.camera.detectors from rfl, hcam]
    simp
  · intro raftId0 dd raftPol raft info? hsel h
    obtain ⟨-, ccds, hfa, hdet⟩ :=
      (makeRaft_places_ccds nat g raftId0 dd raftPol hsel).1 raft info? h
    exact ⟨ccds, List.Forall₂.imp (fun _ _ hcp => hcp.2) hfa, hdet⟩
  · intro ccdId0 dd descr? ccdPol ccd info? hsel h
    obtain ⟨ccdId?, ccdPol', st, h1, hsel', hcnt, h4, hc, hout⟩ :=
      makeCcd_ok_inv h
    have hpp : ccdPol = ccdPol' := by
      rw [hsel'] at hsel
      exact (Option.some.inj hsel).symm
    subst hpp
    obtain ⟨newAmps, hccd, hlen, -, hserials, -, -, hfa⟩ :=
      ampLoop_ok _ _ _ _ _ _ _ h4
    have hamps : ccd.amps = newAmps := by
      rw [hc, hccd]
      simp [(initCcd_amps_id _ _ _).1]
    constructor
    · rw [hamps, hlen]
    · rw [hamps]
      have hzip := forall₂_zip_left ccdPol.amp
        (ampSerialSeq ((none : Option Int).getD 0) ccdPol.amp) newAmps hfa
        (by rw [ampSerialSeq_length])
      refine List.Forall₂.imp ?_ hzip
      intro rec a hrec
      obtain ⟨serial, coordSys, dims, hcs, hb⟩ := hrec
      obtain ⟨-, -, hidx, hchip, hnq, hflip, -⟩ := buildAmp_fields hb
      refine ⟨?_, hchip, hnq, hflip⟩
      rw [hidx]

/-- Witness for C1 at the sample policy, exercising all three layers. -/
theorem makeCamera_assembles_hierarchy_witness :
    (∃ camera info?,
      makeCamera false constNat sampleG none none = .ok (camera, info?) ∧
      info? = none ∧
      ∃ defDict, cameraDefectDict sampleG = .ok defDict ∧
      ∃ rafts, List.Forall₂ (fun (rp : CameraRaftPol) (r : Raft) =>
          makeRaft false constNat sampleG
            (some { serial := rp.serial, name := rp.name }) none defDict =
          .ok (r, none)) sampleG.camera.raft rafts ∧
        camera.detectors =
          List.zipWith cameraEntryOf sampleG.camera.raft rafts) ∧
    (∃ raft info? ccds,
      makeRaft false constNat sampleG (some { serial := 2, name := "R1" })
        none [] = .ok (raft, info?) ∧
      List.Forall₂ (fun (cp : RaftCcdPol) (c : Ccd) =>
          makeCcd false sampleG (some { serial := cp.serial, name := cp.name })
            none [] (some cp) = .ok (c, none)) sampleRaftPol.ccd ccds ∧
        raft.detectors = List.zipWith raftEntryOf sampleRaftPol.ccd ccds) ∧
    (∃ ccd info?,
      makeCcd false sampleG none none [] (some sampleRaftCcd) =
        .ok (ccd, info?) ∧
      ccd.amps.length = sampleCcdPol.amp.length ∧
      List.Forall₂ (fun (rec : AmpPol) (a : Amp) =>
          a.id.index = some rec.index ∧
          a.chipIndex = ⟨rec.index.1, rec.index.2⟩ ∧
          a.nQuarter = rec.nQuarter ∧ a.flipLR = rec.flipLR)
        sampleCcdPol.amp ccd.amps) := by
  refine ⟨?_, ?_, ?_⟩
  · obtain ⟨p, hp⟩ : ∃ p, makeCamera false constNat sampleG none none =
        .ok p := ⟨_, rfl⟩
    obtain ⟨camera, info?⟩ := p
    obtain ⟨hin, defDict, hdd, rafts, hfa, hdet⟩ :=
      (makeCamera_assembles_hierarchy constNat sampleG).1 none camera info? hp
    exact ⟨camera, info?, hp, hin, defDict, hdd, rafts, hfa, hdet⟩
  · obtain ⟨p, hp⟩ : ∃ p, makeRaft false constNat sampleG
        (some { serial := 2, name := "R1" }) none [] = .ok p := ⟨_, rfl⟩
    obtain ⟨raft, info?⟩ := p
    obtain ⟨ccds, hfa, hdet⟩ :=
      (makeCamera_assembles_hierarchy constNat sampleG).2.1
        (some { serial := 2, name := "R1" }) [] sampleRaftPol raft info?
        (by rfl) hp
    exact ⟨raft, info?, ccds, hp, hfa, hdet⟩
  · obtain ⟨p, hp⟩ : ∃ p, makeCcd false sampleG none none []
        (some sampleRaftCcd) = .ok p := ⟨_, rfl⟩
    obtain ⟨ccd, info?⟩ := p
    obtain ⟨hlen, hfa⟩ :=
      (makeCamera_assembles_hierarchy constNat sampleG).2.2
        none [] (some sampleRaftCcd) sampleCcdPol ccd info? (by rfl) hp
    exact ⟨ccd, info?, hp, hlen, hfa⟩

/-- Small concrete composite for the C9 witness. -/
def cexCcd : Ccd := { id := { serial := 4, name := "C" }, pixelSize := 1 }

def cexRaft : Raft :=
  { id := { serial := 5, name := "R" }, nCol := 1, nRow := 1,
    detectors := [ { index := ⟨0, 0⟩, fpPos := ⟨0, 0⟩, orient := {},
                     det := cexCcd } ] }

def cexCam : Camera :=
  { id := { serial := 6, name := "M" }, nCol := 1, nRow := 1,
    detectors := [ { index := ⟨0, 0⟩, fpPos := ⟨0, 0⟩, orient := {},
                     det := cexRaft } ] }

/-- Witness for C9 at a concrete raft and camera. -/
theorem findRaft_raises_findCcd_returns_none_witness :
    findRaft (.rft cexRaft) { serial := 5, name := "R" } =
      .error (.nameError "raft") ∧
    findRaft (.rft cexRaft) { serial := 9, name := "X" } = .ok none ∧
    findCcd (.cam cexCam) { serial := 9, name := "X" } = .ok none :=
  ⟨findRaft_raises_findCcd_returns_none.1 cexRaft _ rfl,
   findRaft_raises_findCcd_returns_none.2.1 cexRaft _ (by decide),
   findRaft_raises_findCcd_returns_none.2.2.2.2.1 (.cam cexCam) _ (by decide)⟩

end Afw
